import Mathlib

/-!
# Watchdog / fault-history boot logic of `stm32-zephyr-watchdog-threads`

Shallow embedding of `src/main.c` (`log_reset_cause`, `health_thread`, `main`) together
with the collaborators it calls.  The collaborators whose C files are not part of the
source tree (`persist_state`, `recovery`, `supervisor`) are modelled from the written
specification; every such definition says so in its doc comment.

Machine integers are `Nat` with an explicit `% UINT32_MOD` wherever the C code performs
`uint32_t` arithmetic; return codes are `Int`.
-/

namespace WatchdogThreads

/-! ## Machine integers -/

/-- Number of values of a C `uint32_t`. -/
def UINT32_MOD : Nat := 4294967296

/-! ## Fault-history store (`persist_state.h`) -/

/-- Modelled from the spec: the durable `FaultRecord` of section 3 (persist_state.c is not
in the source tree).  All three fields are `uint32`. -/
structure FaultRecord where
  consecutiveWatchdogResets : Nat
  totalWatchdogResets : Nat
  watchdogTimeoutOverrideMs : Nat
deriving DecidableEq, Repr

/-- Modelled from the spec: the zeroed record used when nothing is stored. -/
def FaultRecord.zero : FaultRecord := ⟨0, 0, 0⟩

/-- Modelled from the spec: the store is an in-memory cache of the record plus the backing
storage, which holds a committed record or nothing (persist_state.c is not in the source
tree). -/
structure PersistState where
  cache : FaultRecord
  backing : Option FaultRecord
deriving DecidableEq, Repr

/-- Modelled from the spec: "reset to factory" wipes both in-memory and backing state. -/
def persist_state_test_reset (_s : PersistState) : PersistState :=
  { cache := FaultRecord.zero, backing := none }

/-- Modelled from the spec: "reload" discards only the in-memory cache, forcing the next
`init()` to reread backing storage. -/
def persist_state_test_reload (s : PersistState) : PersistState :=
  { s with cache := FaultRecord.zero }

/-- Modelled from the spec: `init()` loads the record from durable storage, or initialises
it to zeros if absent or unreadable; a storage failure (`read_ok = false`) is reported by a
non-zero code and leaves the zeroed record in memory. -/
def persist_state_init (read_ok : Bool) (s : PersistState) : Int × PersistState :=
  if read_ok then
    (0, { s with cache := s.backing.getD FaultRecord.zero })
  else
    (-5, { s with cache := FaultRecord.zero })

/-- Modelled from the spec: every mutation is persisted synchronously. -/
def persist_commit (r : FaultRecord) : PersistState :=
  { cache := r, backing := some r }

/-- Modelled from the spec: `recordBoot(wasWatchdogReset)`: if true, increments both
counters (`uint32` arithmetic); if false, resets the consecutive counter to 0 and leaves
the total unchanged.  Persists before returning. -/
def persist_state_record_boot (watchdog_reset : Bool) (s : PersistState) : PersistState :=
  if watchdog_reset then
    persist_commit
      { s.cache with
        consecutiveWatchdogResets := (s.cache.consecutiveWatchdogResets + 1) % UINT32_MOD
        totalWatchdogResets := (s.cache.totalWatchdogResets + 1) % UINT32_MOD }
  else
    persist_commit { s.cache with consecutiveWatchdogResets := 0 }

/-- Modelled from the spec: `getConsecutiveWatchdog()`. -/
def persist_state_get_consecutive_watchdog (s : PersistState) : Nat :=
  s.cache.consecutiveWatchdogResets

/-- Modelled from the spec: `getTotalWatchdog()`. -/
def persist_state_get_total_watchdog (s : PersistState) : Nat :=
  s.cache.totalWatchdogResets

/-- Modelled from the spec: `fallbackActive = consecutiveWatchdogResets >= THRESHOLD`. -/
def persist_state_is_fallback_active (threshold : Nat) (s : PersistState) : Bool :=
  decide (threshold ≤ s.cache.consecutiveWatchdogResets)

/-- Modelled from the spec: `clearWatchdogCounter()` sets the consecutive counter to 0 and
persists. -/
def persist_state_clear_watchdog_counter (s : PersistState) : PersistState :=
  persist_commit { s.cache with consecutiveWatchdogResets := 0 }

/-- Modelled from the spec: `setWatchdogOverride(ms)` persists the `uint32` value, or
returns a storage error (`write_ok = false`); the spec leaves the state after a failed write
open, so none is returned. -/
def persist_state_set_watchdog_override (write_ok : Bool) (ms : Nat) (s : PersistState) :
    Except Int PersistState :=
  if write_ok then
    .ok (persist_commit { s.cache with watchdogTimeoutOverrideMs := ms % UINT32_MOD })
  else
    .error (-5)

/-- Modelled from the spec: `getWatchdogOverride()`. -/
def persist_state_get_watchdog_override (s : PersistState) : Nat :=
  s.cache.watchdogTimeoutOverrideMs

/-- The test fixture `persist_before`: factory reset followed by a successful init. -/
def persist_before (s : PersistState) : PersistState :=
  (persist_state_init true (persist_state_test_reset s)).2

/-- A finite sequence of `persist_state_record_boot` calls, first call first. -/
def record_boots (calls : List Bool) (s : PersistState) : PersistState :=
  calls.foldl (fun st b => persist_state_record_boot b st) s

/-- Length of the trailing run of `true` in a call sequence. -/
def trailing_true_run (calls : List Bool) : Nat :=
  (calls.reverse.takeWhile id).length

/-! ## Recovery controller (`recovery.h`) -/

/-- Reasons passed to `recovery_request`.  The first three and `RECOVERY_REASON_COUNT` are
named in the sources; the safe-mode timeout reason is the spec's `SafeModeRebootTimeout`. -/
inductive recovery_reason where
  | RECOVERY_REASON_WATCHDOG_INIT_FAIL
  | RECOVERY_REASON_HEALTH_FAULT
  | RECOVERY_REASON_MANUAL_TRIGGER
  | RECOVERY_REASON_SAFE_MODE_TIMEOUT
  | RECOVERY_REASON_COUNT
deriving DecidableEq, Repr

/-- Modelled from the spec: state of the recovery controller of section 4.2 (recovery.c is
not in the source tree): whether `start()` ran, the reset in flight, and the armed one-shot
safe-mode reboot delay. -/
structure RecoveryState where
  started : Bool
  reset_in_flight : Option recovery_reason
  safe_mode_timer_ms : Option Nat
deriving DecidableEq, Repr

/-- Modelled from the spec: the controller before `start()`. -/
def RecoveryState.fresh : RecoveryState :=
  { started := false, reset_in_flight := none, safe_mode_timer_ms := none }

/-- Modelled from the spec: `start()` readies the controller. -/
def recovery_start (r : RecoveryState) : RecoveryState :=
  { r with started := true }

/-- Modelled from the spec: `request(reason)` records the reason and resets; it has no
effect before `start()` or while a reset is already in flight. -/
def recovery_request (reason : recovery_reason) (r : RecoveryState) : RecoveryState :=
  if r.started && r.reset_in_flight.isNone then
    { r with reset_in_flight := some reason }
  else r

/-- Modelled from the spec: `scheduleSafeModeReboot(delayMs)`: no-op if `delayMs == 0`,
otherwise arms the one-shot deferred `request(SafeModeRebootTimeout)`; no effect before
`start()`. -/
def recovery_schedule_safe_mode_reboot (delay_ms : Nat) (r : RecoveryState) :
    RecoveryState :=
  if delay_ms == 0 then r
  else if r.started then { r with safe_mode_timer_ms := some delay_ms }
  else r

/-! ## Observable calls -/

/-- Zephyr log levels used by the application. -/
inductive LogLevel where
  | INF
  | WRN
  | ERR
deriving DecidableEq, Repr

/-- One call made to a collaborator, with its arguments and, where the caller uses it,
the value returned. -/
inductive Event where
  | k_thread_name_set (name : String)
  | log (level : LogLevel) (text : String) (args : List Int)
  | persist_state_init (ret : Int)
  | hwinfo_get_reset_cause (ret : Int)
  | hwinfo_clear_reset_cause
  | persist_state_record_boot (watchdog_reset : Bool)
  | persist_state_get_consecutive_watchdog (ret : Nat)
  | persist_state_get_total_watchdog (ret : Nat)
  | persist_state_is_fallback_active (ret : Bool)
  | persist_state_clear_watchdog_counter
  | recovery_start
  | recovery_schedule_safe_mode_reboot (delay_ms : Nat)
  | persist_state_get_watchdog_override (ret : Nat)
  | watchdog_ctrl_init (timeout_ms : Nat) (ret : Int)
  | watchdog_ctrl_feed
  | watchdog_ctrl_retune (timeout_ms : Nat) (ret : Int)
  | recovery_request (reason : recovery_reason)
  | k_thread_create_health (fallback_mode : Bool)
  | supervisor_start (steady_timeout_ms retune_delay_ms : Nat) (led_monitoring : Bool)
  | uart_commands_start (fallback_mode : Bool)
  | gpio_pin_configure_dt (ret : Int)
  | gpio_pin_toggle_dt (ret : Int)
  | supervisor_notify_led_alive
  | supervisor_notify_system_alive
  | k_msleep (ms : Nat)
deriving DecidableEq, Repr

/-- `LOG_EVT_SIMPLE(level, tag, status)` of log_utils.h: the line `EVT,<tag>,<status>`. -/
def LOG_EVT_SIMPLE (level : LogLevel) (tag status : String) : Event :=
  .log level ("EVT," ++ tag ++ "," ++ status) []

/-- `LOG_EVT(level, tag, status, fmt, ...)` of log_utils.h: the line
`EVT,<tag>,<status>,<fmt>` with its format arguments. -/
def LOG_EVT (level : LogLevel) (tag status fmt : String) (args : List Int) : Event :=
  .log level ("EVT," ++ tag ++ "," ++ status ++ "," ++ fmt) args

/-! ## Build configuration and platform constants -/

/-- Kconfig values used by the application (the Kconfig file is not in the source tree, so
they are parameters).  All integer options are `uint32` values. -/
structure Config where
  CONFIG_APP_RESET_WATCHDOG_THRESHOLD : Nat
  CONFIG_APP_SAFE_MODE_REBOOT_DELAY_MS : Nat
  CONFIG_APP_WATCHDOG_BOOT_TIMEOUT_MS : Nat
  CONFIG_APP_WATCHDOG_STEADY_TIMEOUT_MS : Nat
  CONFIG_APP_WATCHDOG_RETUNE_DELAY_MS : Nat
  CONFIG_APP_ENABLE_UART_COMMANDS : Bool
  CONFIG_APP_HEALTH_LED_STALE_MS : Nat
  CONFIG_APP_HEALTH_SYS_STALE_MS : Nat
deriving DecidableEq, Repr

/-- `RESET_SOFTWARE` of Zephyr's hwinfo.h, `BIT(1)`. -/
def RESET_SOFTWARE : Nat := 2
/-- `RESET_POR` of Zephyr's hwinfo.h, `BIT(3)`. -/
def RESET_POR : Nat := 8
/-- `RESET_WATCHDOG` of Zephyr's hwinfo.h, `BIT(4)`. -/
def RESET_WATCHDOG : Nat := 16

/-- `MAX(a, b)` of Zephyr's util.h. -/
def MAX (a b : Nat) : Nat := if a > b then a else b

/-- What the platform answers during one run of `main`: whether the durable record can be
read, the return code of `hwinfo_get_reset_cause` and the `uint32` it stores through its
pointer (if it stores anything), and the return code of `watchdog_ctrl_init`. -/
structure BootEnv where
  persist_read_ok : Bool
  hwinfo_rc : Int
  hwinfo_cause : Option Nat
  watchdog_init_rc : Int
deriving DecidableEq, Repr

/-- Everything `main` acts on: the fault-history store, the recovery controller and the
trace of calls made so far (oldest first). -/
structure BootState where
  persist : PersistState
  recovery : RecoveryState
  trace : List Event
deriving DecidableEq, Repr

/-- Append one call to the trace. -/
def BootState.emit (st : BootState) (e : Event) : BootState :=
  { st with trace := st.trace ++ [e] }

/-- Append an optional diagnostic to the trace. -/
def BootState.emit_if (st : BootState) (c : Bool) (e : Event) : BootState :=
  if c then st.emit e else st

/-- The call `persist_state_init()` made by `main`: returns the code, updates the store
and records the call. -/
def BootState.call_persist_state_init (env : BootEnv) (st : BootState) : Int × BootState :=
  let r : Int × PersistState := persist_state_init env.persist_read_ok st.persist
  (r.1, { st with persist := r.2, trace := st.trace ++ [.persist_state_init r.1] })

/-- The call `persist_state_record_boot(watchdog_reset)`. -/
def BootState.call_record_boot (watchdog_reset : Bool) (st : BootState) : BootState :=
  { st with
    persist := persist_state_record_boot watchdog_reset st.persist
    trace := st.trace ++ [.persist_state_record_boot watchdog_reset] }

/-- The call `persist_state_clear_watchdog_counter()`. -/
def BootState.call_clear_watchdog_counter (st : BootState) : BootState :=
  { st with
    persist := persist_state_clear_watchdog_counter st.persist
    trace := st.trace ++ [.persist_state_clear_watchdog_counter] }

/-- The call `recovery_start()`. -/
def BootState.call_recovery_start (st : BootState) : BootState :=
  { st with
    recovery := recovery_start st.recovery
    trace := st.trace ++ [.recovery_start] }

/-- The call `recovery_schedule_safe_mode_reboot(delay_ms)`. -/
def BootState.call_schedule_safe_mode_reboot (delay_ms : Nat) (st : BootState) :
    BootState :=
  { st with
    recovery := recovery_schedule_safe_mode_reboot delay_ms st.recovery
    trace := st.trace ++ [.recovery_schedule_safe_mode_reboot delay_ms] }

/-- The call `recovery_request(reason)`. -/
def BootState.call_recovery_request (reason : recovery_reason) (st : BootState) :
    BootState :=
  { st with
    recovery := recovery_request reason st.recovery
    trace := st.trace ++ [.recovery_request reason] }

/-! ## `src/main.c` -/

/-- `log_reset_cause` of main.c: `cause` starts at 0, is overwritten by what
`hwinfo_get_reset_cause` stores, the three diagnostics and the clear happen only when the
call returned 0, and `cause` is returned in every case. -/
def log_reset_cause (env : BootEnv) (st : BootState) : Nat × BootState :=
  let cause : Nat := (env.hwinfo_cause.getD 0) % UINT32_MOD
  let st := st.emit (.hwinfo_get_reset_cause env.hwinfo_rc)
  if env.hwinfo_rc == 0 then
    let st := st.emit_if ((cause &&& RESET_WATCHDOG) != 0)
      (.log .WRN "Reset cause: WATCHDOG" [])
    let st := st.emit_if ((cause &&& RESET_SOFTWARE) != 0)
      (.log .WRN "Reset cause: SOFTWARE" [])
    let st := st.emit_if ((cause &&& RESET_POR) != 0)
      (.log .WRN "Reset cause: POWER-ON" [])
    let st := st.emit .hwinfo_clear_reset_cause
    (cause, st)
  else
    (cause, st)

/-- One iteration per answer of `gpio_pin_toggle_dt`: the `while (1)` loop of
`health_thread`, run for as long as toggle results are supplied. -/
def health_loop (led_period_ms heartbeat_period_ms : Nat) :
    List Int → Nat → Nat → List Event
  | [], _, _ => []
  | ret :: rest, hb_elapsed, heartbeat_counter =>
    if ret != 0 then
      [.gpio_pin_toggle_dt ret, .log .ERR "LED toggle failed: %d" [ret], .k_msleep 1000]
        ++ health_loop led_period_ms heartbeat_period_ms rest hb_elapsed heartbeat_counter
    else
      let hb_elapsed := (hb_elapsed + led_period_ms) % UINT32_MOD
      if hb_elapsed ≥ heartbeat_period_ms then
        let hb_elapsed := hb_elapsed - heartbeat_period_ms
        let heartbeat_counter := (heartbeat_counter + 1) % UINT32_MOD
        [.gpio_pin_toggle_dt ret, .supervisor_notify_led_alive,
          .supervisor_notify_system_alive]
          ++ (if heartbeat_counter % 10 == 0 then
                [LOG_EVT .INF "HEARTBEAT" "OK" "count=%u" [(heartbeat_counter : Int)]]
              else [])
          ++ [.k_msleep led_period_ms]
          ++ health_loop led_period_ms heartbeat_period_ms rest hb_elapsed heartbeat_counter
      else
        [.gpio_pin_toggle_dt ret, .supervisor_notify_led_alive, .k_msleep led_period_ms]
          ++ health_loop led_period_ms heartbeat_period_ms rest hb_elapsed heartbeat_counter

/-- LED period chosen by `health_thread`: `fallback_mode ? 1000U : 500U`. -/
def led_period_ms (fallback_mode : Bool) : Nat :=
  if fallback_mode then 1000 else 500

/-- `health_thread` of main.c, given the return code of `gpio_pin_configure_dt` and the
return codes of the successive `gpio_pin_toggle_dt` calls. -/
def health_thread (fallback_mode : Bool) (configure_ret : Int) (toggles : List Int) :
    List Event :=
  [.k_thread_name_set (if fallback_mode then "health (fallback)" else "health"),
    .gpio_pin_configure_dt configure_ret]
  ++
  if configure_ret != 0 then
    [.log .ERR "LED config failed: %d" [configure_ret]]
  else
    (if fallback_mode then [LOG_EVT_SIMPLE .WRN "SAFE_MODE" "LED_SLOW_BLINK"] else [])
      ++ health_loop (led_period_ms fallback_mode) 1000 toggles 0 0

/-- The part of `main` that reports the reset history: taken only when the consecutive
counter is non-zero; reads the total counter as a log argument. -/
def log_reset_history (consecutive : Nat) (st : BootState) : BootState :=
  if consecutive != 0 then
    let total : Nat := persist_state_get_total_watchdog st.persist
    (st.emit (.persist_state_get_total_watchdog total)).emit
      (LOG_EVT .WRN "WATCHDOG" "RESET_HISTORY" "consecutive=%u,total=%u"
        [(consecutive : Int), (total : Int)])
  else st

/-- The `if (fallback_mode)` block of `main` that enters safe mode and clears the
consecutive counter. -/
def enter_safe_mode (fallback_mode : Bool) (st : BootState) : BootState :=
  if fallback_mode then
    (((st.emit (LOG_EVT_SIMPLE .ERR "SAFE_MODE" "ENTERED")).call_clear_watchdog_counter).emit
      (LOG_EVT_SIMPLE .INF "WATCHDOG" "COUNTER_CLEARED"))
  else st

/-- The steady timeout computed by `main` from the stored override: 0 selects the
configured default, and fallback mode raises the value to at least the boot timeout. -/
def steady_timeout (cfg : Config) (fallback_mode : Bool) (override_ms : Nat) : Nat :=
  let boot_timeout_ms : Nat := cfg.CONFIG_APP_WATCHDOG_BOOT_TIMEOUT_MS
  let steady_timeout_ms : Nat :=
    if override_ms == 0 then cfg.CONFIG_APP_WATCHDOG_STEADY_TIMEOUT_MS else override_ms
  if fallback_mode then MAX steady_timeout_ms boot_timeout_ms else steady_timeout_ms

/-- The retune delay computed by `main`: the configured delay, forced to 0 in fallback
mode. -/
def retune_delay (cfg : Config) (fallback_mode : Bool) : Nat :=
  if fallback_mode then 0 else cfg.CONFIG_APP_WATCHDOG_RETUNE_DELAY_MS

/-- The tail of `main` from `watchdog_ctrl_init` on: on a non-zero return code the two
diagnostics, `recovery_request(RECOVERY_REASON_WATCHDOG_INIT_FAIL)` and `return`; otherwise
the health thread, the supervisor and (if enabled) the UART commands are started. -/
def arm_and_start (cfg : Config) (env : BootEnv) (fallback_mode : Bool)
    (steady_timeout_ms retune_delay_ms : Nat) (st : BootState) : BootState :=
  let boot_timeout_ms : Nat := cfg.CONFIG_APP_WATCHDOG_BOOT_TIMEOUT_MS
  let ret : Int := env.watchdog_init_rc
  let st : BootState := st.emit (.watchdog_ctrl_init boot_timeout_ms ret)
  if ret != 0 then
    let st : BootState := st.emit (LOG_EVT .ERR "WATCHDOG" "INIT_FAIL" "rc=%d" [ret])
    let st : BootState := st.emit (LOG_EVT_SIMPLE .ERR "RECOVERY" "WATCHDOG_INIT_FAIL")
    st.call_recovery_request .RECOVERY_REASON_WATCHDOG_INIT_FAIL
  else
    let st : BootState := st.emit (LOG_EVT .INF "WATCHDOG" "CONFIGURED"
      "boot_ms=%u,steady_ms=%u,retune_delay_ms=%u"
      [(boot_timeout_ms : Int), (steady_timeout_ms : Int), (retune_delay_ms : Int)])
    let st : BootState := st.emit_if fallback_mode
      (LOG_EVT_SIMPLE .WRN "WATCHDOG" "RETUNE_DISABLED_SAFE_MODE")
    let st : BootState := st.emit (.k_thread_create_health fallback_mode)
    let st : BootState := st.emit (.k_thread_name_set
      (if fallback_mode then "Health Thread (fallback)" else "Health Thread"))
    let st : BootState :=
      st.emit (.supervisor_start steady_timeout_ms retune_delay_ms (!fallback_mode))
    let st : BootState := st.emit_if cfg.CONFIG_APP_ENABLE_UART_COMMANDS
      (.uart_commands_start fallback_mode)
    let st : BootState := st.emit (.k_msleep 120)
    st.emit (LOG_EVT_SIMPLE .INF "APP" "READY")

/-- `main` of main.c, statement by statement. -/
def main (cfg : Config) (env : BootEnv) (st : BootState) : BootState :=
  let st : BootState := st.emit (.k_thread_name_set "main")
  let st : BootState := st.emit (LOG_EVT_SIMPLE .INF "APP" "START")
  let r : Int × BootState := st.call_persist_state_init env
  let ret : Int := r.1
  let st : BootState := r.2
  let st : BootState :=
    st.emit_if (ret != 0) (.log .ERR "Persistent state init failed: %d" [ret])
  let rc : Nat × BootState := log_reset_cause env st
  let reset_cause : Nat := rc.1
  let st : BootState := rc.2
  let watchdog_reset : Bool := (reset_cause &&& RESET_WATCHDOG) != 0
  let st : BootState := st.call_record_boot watchdog_reset
  let consecutive : Nat := persist_state_get_consecutive_watchdog st.persist
  let st : BootState := st.emit (.persist_state_get_consecutive_watchdog consecutive)
  let st : BootState := log_reset_history consecutive st
  let fallback_mode : Bool :=
    persist_state_is_fallback_active cfg.CONFIG_APP_RESET_WATCHDOG_THRESHOLD st.persist
  let st : BootState := st.emit (.persist_state_is_fallback_active fallback_mode)
  let st : BootState := enter_safe_mode fallback_mode st
  let st : BootState := st.call_recovery_start
  let st : BootState := st.call_schedule_safe_mode_reboot
    (if fallback_mode then cfg.CONFIG_APP_SAFE_MODE_REBOOT_DELAY_MS else 0)
  let override_ms : Nat := persist_state_get_watchdog_override st.persist
  let st : BootState := st.emit (.persist_state_get_watchdog_override override_ms)
  arm_and_start cfg env fallback_mode (steady_timeout cfg fallback_mode override_ms)
    (retune_delay cfg fallback_mode) st

/-! ## Health supervisor (`supervisor.h`) -/

/-- Modelled from the spec: supervisor state of sections 3 and 4.3 (supervisor.c is not in
the source tree): the configuration given to `start()`, the two channel timestamps, the
start time and the retune-performed flag.  Times are milliseconds of uptime. -/
structure SupervisorState where
  steadyTimeoutMs : Nat
  retuneDelayMs : Nat
  ledMonitoringEnabled : Bool
  ledLastAlive : Int
  sysLastAlive : Int
  startedAt : Int
  retuned : Bool
deriving DecidableEq, Repr

/-- Modelled from the spec: `start()` fully reinitialises channel timestamps (to "now"),
the retune-performed flag and the configuration. -/
def supervisor_start (steady_timeout_ms retune_delay_ms : Nat) (led_monitoring : Bool)
    (now : Int) : SupervisorState :=
  { steadyTimeoutMs := steady_timeout_ms
    retuneDelayMs := retune_delay_ms
    ledMonitoringEnabled := led_monitoring
    ledLastAlive := now
    sysLastAlive := now
    startedAt := now
    retuned := false }

/-- Modelled from the spec: `notifyLedAlive()` sets the LED channel timestamp to now. -/
def supervisor_notify_led_alive (now : Int) (s : SupervisorState) : SupervisorState :=
  { s with ledLastAlive := now }

/-- Modelled from the spec: `notifySystemAlive()` sets the SYSTEM channel timestamp to
now. -/
def supervisor_notify_system_alive (now : Int) (s : SupervisorState) : SupervisorState :=
  { s with sysLastAlive := now }

/-- Modelled from the spec: a channel is stale if
`now - lastAliveTimestamp > staleThresholdMs`. -/
def channel_stale (now last_alive : Int) (stale_threshold_ms : Nat) : Bool :=
  decide (now - last_alive > (stale_threshold_ms : Int))

/-- Modelled from the spec: steps 1 and 2 of the tick: SYSTEM is always monitored, LED only
if `ledMonitoringEnabled`; true iff some monitored channel is stale. -/
def any_monitored_stale (cfg : Config) (now : Int) (s : SupervisorState) : Bool :=
  channel_stale now s.sysLastAlive cfg.CONFIG_APP_HEALTH_SYS_STALE_MS
    || (s.ledMonitoringEnabled
        && channel_stale now s.ledLastAlive cfg.CONFIG_APP_HEALTH_LED_STALE_MS)

/-- Modelled from the spec: step 4 of the tick, the retune transition, performed at most
once per `start()`: once the time since `start()` reaches `retuneDelayMs`, call
`retune(steadyTimeoutMs)`; on success (`retune_rc = 0`) clear the consecutive counter, on
failure log and do not retry. -/
def supervisor_retune_step (now : Int) (retune_rc : Int) (s : SupervisorState) :
    SupervisorState × List Event :=
  if !s.retuned && decide (now - s.startedAt ≥ (s.retuneDelayMs : Int)) then
    ({ s with retuned := true },
      [.watchdog_ctrl_retune s.steadyTimeoutMs retune_rc]
        ++ (if retune_rc == 0 then [.persist_state_clear_watchdog_counter]
            else [LOG_EVT .WRN "WATCHDOG" "RETUNE_FAIL" "rc=%d" [retune_rc]]))
  else (s, [])

/-- Modelled from the spec: one iteration of the background tick of section 4.3: if every
monitored channel is fresh feed the watchdog, else do not feed and call
`request(HealthFault)`; then the retune transition.  Returns the new state and the calls
made, oldest first. -/
def supervisor_tick (cfg : Config) (now : Int) (retune_rc : Int) (s : SupervisorState) :
    SupervisorState × List Event :=
  let health : List Event :=
    if any_monitored_stale cfg now s then
      [.recovery_request .RECOVERY_REASON_HEALTH_FAULT]
    else [.watchdog_ctrl_feed]
  let r : SupervisorState × List Event := supervisor_retune_step now retune_rc s
  (r.1, health ++ r.2)

/-! ## Traces and boot sequences -/

/-- Recognises a `persist_state_init` call. -/
def Event.is_persist_state_init : Event → Bool
  | .persist_state_init _ => true
  | _ => false

/-- Recognises a `persist_state_record_boot` call. -/
def Event.is_record_boot : Event → Bool
  | .persist_state_record_boot _ => true
  | _ => false

/-- Recognises a read of `persist_state_is_fallback_active`. -/
def Event.is_fallback_read : Event → Bool
  | .persist_state_is_fallback_active _ => true
  | _ => false

/-- Recognises a `persist_state_clear_watchdog_counter` call. -/
def Event.is_clear_counter : Event → Bool
  | .persist_state_clear_watchdog_counter => true
  | _ => false

/-- Recognises a `recovery_start` call. -/
def Event.is_recovery_start : Event → Bool
  | .recovery_start => true
  | _ => false

/-- Recognises a `recovery_schedule_safe_mode_reboot` call. -/
def Event.is_schedule_reboot : Event → Bool
  | .recovery_schedule_safe_mode_reboot _ => true
  | _ => false

/-- Recognises a read of `persist_state_get_consecutive_watchdog`. -/
def Event.is_consecutive_read : Event → Bool
  | .persist_state_get_consecutive_watchdog _ => true
  | _ => false

/-- Recognises a read of `persist_state_get_watchdog_override`. -/
def Event.is_override_read : Event → Bool
  | .persist_state_get_watchdog_override _ => true
  | _ => false

/-- Recognises a `watchdog_ctrl_init` call. -/
def Event.is_watchdog_init : Event → Bool
  | .watchdog_ctrl_init _ _ => true
  | _ => false

/-- Recognises a `recovery_request` call, whatever the reason. -/
def Event.is_recovery_request : Event → Bool
  | .recovery_request _ => true
  | _ => false

/-- Recognises the creation of the health thread. -/
def Event.is_thread_create : Event → Bool
  | .k_thread_create_health _ => true
  | _ => false

/-- Recognises a `supervisor_start` call. -/
def Event.is_supervisor_start : Event → Bool
  | .supervisor_start _ _ _ => true
  | _ => false

/-- Recognises a `uart_commands_start` call. -/
def Event.is_uart_start : Event → Bool
  | .uart_commands_start _ => true
  | _ => false

/-- Recognises a `watchdog_ctrl_feed` call. -/
def Event.is_feed : Event → Bool
  | .watchdog_ctrl_feed => true
  | _ => false

/-- Recognises a `supervisor_notify_system_alive` call. -/
def Event.is_system_alive : Event → Bool
  | .supervisor_notify_system_alive => true
  | _ => false

/-- Milliseconds slept by a `k_msleep` call, 0 for any other call. -/
def Event.slept_ms : Event → Nat
  | .k_msleep ms => ms
  | _ => 0

/-- Total time a trace spends in `k_msleep`. -/
def total_slept_ms (tr : List Event) : Nat :=
  (tr.map Event.slept_ms).sum

/-- In the trace a call satisfying `p` occurs, and no call satisfying `q` occurs before the
first of them: every `q` call comes after a `p` call. -/
def called_before (p q : Event → Bool) : List Event → Bool
  | [] => false
  | e :: es => if p e then true else if q e then false else called_before p q es

/-- The `uint32` that `log_reset_cause` returns to `main`. -/
def reset_cause_of (env : BootEnv) : Nat :=
  (env.hwinfo_cause.getD 0) % UINT32_MOD

/-- The flag `main` passes to `persist_state_record_boot`. -/
def watchdog_reset_of (env : BootEnv) : Bool :=
  (reset_cause_of env &&& RESET_WATCHDOG) != 0

/-- The store as `main` sees it when it reads the counters and the fallback flag: after
`persist_state_init` and `persist_state_record_boot`. -/
def store_after_record_boot (env : BootEnv) (p : PersistState) : PersistState :=
  persist_state_record_boot (watchdog_reset_of env)
    (persist_state_init env.persist_read_ok p).2

/-- The value `main` reads from `persist_state_is_fallback_active()`. -/
def fallback_mode_of (cfg : Config) (env : BootEnv) (p : PersistState) : Bool :=
  persist_state_is_fallback_active cfg.CONFIG_APP_RESET_WATCHDOG_THRESHOLD
    (store_after_record_boot env p)

/-- The store `main` leaves behind: the consecutive counter is cleared on a fallback
boot. -/
def store_after_main (cfg : Config) (env : BootEnv) (p : PersistState) : PersistState :=
  if fallback_mode_of cfg env p then
    persist_state_clear_watchdog_counter (store_after_record_boot env p)
  else store_after_record_boot env p

/-- The calls `log_reset_cause` makes, oldest first. -/
def reset_cause_calls (env : BootEnv) : List Event :=
  [.hwinfo_get_reset_cause env.hwinfo_rc]
    ++ (if env.hwinfo_rc == 0 then
          (if (reset_cause_of env &&& RESET_WATCHDOG) != 0 then
              [.log .WRN "Reset cause: WATCHDOG" []] else [])
            ++ (if (reset_cause_of env &&& RESET_SOFTWARE) != 0 then
              [.log .WRN "Reset cause: SOFTWARE" []] else [])
            ++ (if (reset_cause_of env &&& RESET_POR) != 0 then
              [.log .WRN "Reset cause: POWER-ON" []] else [])
            ++ [.hwinfo_clear_reset_cause]
        else [])

/-- The calls `main` makes up to and including the read of the fallback flag. -/
def history_calls (cfg : Config) (env : BootEnv) (p : PersistState) : List Event :=
  [.k_thread_name_set "main", LOG_EVT_SIMPLE .INF "APP" "START",
    .persist_state_init (persist_state_init env.persist_read_ok p).1]
    ++ (if (persist_state_init env.persist_read_ok p).1 != 0 then
          [.log .ERR "Persistent state init failed: %d"
            [(persist_state_init env.persist_read_ok p).1]] else [])
    ++ reset_cause_calls env
    ++ [.persist_state_record_boot (watchdog_reset_of env),
        .persist_state_get_consecutive_watchdog
          (persist_state_get_consecutive_watchdog (store_after_record_boot env p))]
    ++ (if persist_state_get_consecutive_watchdog (store_after_record_boot env p) != 0 then
          [.persist_state_get_total_watchdog
              (persist_state_get_total_watchdog (store_after_record_boot env p)),
            LOG_EVT .WRN "WATCHDOG" "RESET_HISTORY" "consecutive=%u,total=%u"
              [(persist_state_get_consecutive_watchdog (store_after_record_boot env p) : Int),
                (persist_state_get_total_watchdog (store_after_record_boot env p) : Int)]]
        else [])
    ++ [.persist_state_is_fallback_active (fallback_mode_of cfg env p)]

/-- The calls `main` makes between the read of the fallback flag and
`watchdog_ctrl_init`, both excluded from the first and included for the second. -/
def recovery_calls (cfg : Config) (env : BootEnv) (p : PersistState) : List Event :=
  (if fallback_mode_of cfg env p then
      [LOG_EVT_SIMPLE .ERR "SAFE_MODE" "ENTERED", .persist_state_clear_watchdog_counter,
        LOG_EVT_SIMPLE .INF "WATCHDOG" "COUNTER_CLEARED"]
    else [])
    ++ [.recovery_start,
        .recovery_schedule_safe_mode_reboot
          (if fallback_mode_of cfg env p then cfg.CONFIG_APP_SAFE_MODE_REBOOT_DELAY_MS
           else 0),
        .persist_state_get_watchdog_override
          (persist_state_get_watchdog_override (store_after_main cfg env p)),
        .watchdog_ctrl_init cfg.CONFIG_APP_WATCHDOG_BOOT_TIMEOUT_MS env.watchdog_init_rc]

/-- The calls `main` makes after `watchdog_ctrl_init` returned. -/
def start_calls (cfg : Config) (env : BootEnv) (p : PersistState) : List Event :=
  if env.watchdog_init_rc != 0 then
    [LOG_EVT .ERR "WATCHDOG" "INIT_FAIL" "rc=%d" [env.watchdog_init_rc],
      LOG_EVT_SIMPLE .ERR "RECOVERY" "WATCHDOG_INIT_FAIL",
      .recovery_request .RECOVERY_REASON_WATCHDOG_INIT_FAIL]
  else
    [LOG_EVT .INF "WATCHDOG" "CONFIGURED" "boot_ms=%u,steady_ms=%u,retune_delay_ms=%u"
        [(cfg.CONFIG_APP_WATCHDOG_BOOT_TIMEOUT_MS : Int),
          (steady_timeout cfg (fallback_mode_of cfg env p)
            (persist_state_get_watchdog_override (store_after_main cfg env p)) : Int),
          (retune_delay cfg (fallback_mode_of cfg env p) : Int)]]
      ++ (if fallback_mode_of cfg env p then
            [LOG_EVT_SIMPLE .WRN "WATCHDOG" "RETUNE_DISABLED_SAFE_MODE"] else [])
      ++ [.k_thread_create_health (fallback_mode_of cfg env p),
          .k_thread_name_set (if fallback_mode_of cfg env p then "Health Thread (fallback)"
            else "Health Thread"),
          .supervisor_start
            (steady_timeout cfg (fallback_mode_of cfg env p)
              (persist_state_get_watchdog_override (store_after_main cfg env p)))
            (retune_delay cfg (fallback_mode_of cfg env p))
            (!fallback_mode_of cfg env p)]
      ++ (if cfg.CONFIG_APP_ENABLE_UART_COMMANDS then
            [.uart_commands_start (fallback_mode_of cfg env p)] else [])
      ++ [.k_msleep 120, LOG_EVT_SIMPLE .INF "APP" "READY"]

/-- One run of `main` after a reset: RAM is lost (the in-memory cache is discarded and the
recovery controller is fresh), backing storage is kept, the trace starts empty. -/
def boot (cfg : Config) (env : BootEnv) (p : PersistState) : BootState :=
  main cfg env
    { persist := persist_state_test_reload p, recovery := RecoveryState.fresh, trace := [] }

/-- Whether `main` read `persist_state_is_fallback_active()` as true in this run. -/
def fallback_entered (st : BootState) : Bool :=
  st.trace.contains (.persist_state_is_fallback_active true)

/-- The consecutive counter as committed to backing storage (0 if nothing is stored). -/
def stored_consecutive (p : PersistState) : Nat :=
  (p.backing.getD FaultRecord.zero).consecutiveWatchdogResets

/-- One power cycle: what the platform answers to `main`, and whether afterwards the
supervisor's successful retune called `persist_state_clear_watchdog_counter` before the
next reset. -/
structure BootCycle where
  env : BootEnv
  supervisor_cleared : Bool
deriving DecidableEq, Repr

/-- Whether `main` classifies the cycle's reset as watchdog-caused. -/
def BootCycle.watchdog_caused (c : BootCycle) : Bool :=
  (((c.env.hwinfo_cause.getD 0) % UINT32_MOD) &&& RESET_WATCHDOG) != 0

/-- Run one power cycle: whether it entered fallback mode, and the store it leaves. -/
def run_cycle (cfg : Config) (c : BootCycle) (p : PersistState) : Bool × PersistState :=
  let st : BootState := boot cfg c.env p
  (fallback_entered st,
    if c.supervisor_cleared then persist_state_clear_watchdog_counter st.persist
    else st.persist)

/-- Run a sequence of power cycles: the fallback decision of each, and the final store. -/
def run_boots (cfg : Config) : List BootCycle → PersistState → List Bool × PersistState
  | [], p => ([], p)
  | c :: cs, p =>
    let r : Bool × PersistState := run_cycle cfg c p
    let rest : List Bool × PersistState := run_boots cfg cs r.2
    (r.1 :: rest.1, rest.2)

/-- A power cycle whose reset cause is the watchdog, with working storage and watchdog
driver, and no later clearing by the supervisor. -/
def watchdog_cycle : BootCycle :=
  { env := { persist_read_ok := true, hwinfo_rc := 0, hwinfo_cause := some RESET_WATCHDOG,
             watchdog_init_rc := 0 }
    supervisor_cleared := false }

/-- A sample configuration (threshold 3) used to evaluate the definitions. -/
def sample_config : Config :=
  { CONFIG_APP_RESET_WATCHDOG_THRESHOLD := 3
    CONFIG_APP_SAFE_MODE_REBOOT_DELAY_MS := 60000
    CONFIG_APP_WATCHDOG_BOOT_TIMEOUT_MS := 8000
    CONFIG_APP_WATCHDOG_STEADY_TIMEOUT_MS := 2000
    CONFIG_APP_WATCHDOG_RETUNE_DELAY_MS := 5000
    CONFIG_APP_ENABLE_UART_COMMANDS := true
    CONFIG_APP_HEALTH_LED_STALE_MS := 1500
    CONFIG_APP_HEALTH_SYS_STALE_MS := 3000 }

/-! ## Fault-history store: counters, fallback flag, override -/

theorem record_boots_append (xs : List Bool) (b : Bool) (s : PersistState) :
    record_boots (xs ++ [b]) s = persist_state_record_boot b (record_boots xs s) := by
  simp [record_boots, List.foldl_append]

theorem trailing_true_run_append (xs : List Bool) (b : Bool) :
    trailing_true_run (xs ++ [b]) = if b then trailing_true_run xs + 1 else 0 := by
  cases b <;> simp [trailing_true_run, List.takeWhile_cons]

theorem trailing_true_run_le_count (xs : List Bool) :
    trailing_true_run xs ≤ xs.count true := by
  induction xs using List.reverseRecOn with
  | nil => simp [trailing_true_run]
  | append_singleton xs b ih =>
    rw [trailing_true_run_append, List.count_append]
    cases b
    · simp
    · simp; omega

theorem trailing_true_run_replicate (n : Nat) :
    trailing_true_run (List.replicate n true) = n := by
  induction n with
  | zero => simp [trailing_true_run]
  | succ n ih =>
    have h : List.replicate (n + 1) true = List.replicate n true ++ [true] := by
      rw [List.replicate_succ']
    rw [h, trailing_true_run_append, ih]; simp

/-- Counters after any call sequence from the fresh store, in `uint32` arithmetic. -/
theorem record_boots_uint32 (calls : List Bool) (s : PersistState) :
    persist_state_get_consecutive_watchdog (record_boots calls (persist_before s))
        = trailing_true_run calls % UINT32_MOD
      ∧ persist_state_get_total_watchdog (record_boots calls (persist_before s))
        = calls.count true % UINT32_MOD := by
  induction calls using List.reverseRecOn with
  | nil =>
    simp [record_boots, persist_before, persist_state_init, persist_state_test_reset,
      persist_state_get_consecutive_watchdog, persist_state_get_total_watchdog,
      trailing_true_run, FaultRecord.zero, UINT32_MOD]
  | append_singleton xs b ih =>
    obtain ⟨ih1, ih2⟩ := ih
    rw [record_boots_append, trailing_true_run_append, List.count_append]
    simp only [persist_state_get_consecutive_watchdog, persist_state_get_total_watchdog,
      UINT32_MOD] at ih1 ih2 ⊢
    cases b
    · simp [persist_state_record_boot, persist_commit, ih2]
    · simp [persist_state_record_boot, persist_commit, ih1, ih2, UINT32_MOD]

/-- C1 (as stated, refuted): after 2^32 calls with `b = true` on the fresh store the
`uint32` consecutive counter is not the length of the trailing run of `true` calls. -/
theorem record_boot_counters_overflow :
    ¬ (persist_state_get_consecutive_watchdog
          (record_boots (List.replicate 4294967296 true)
            (persist_before ⟨FaultRecord.zero, none⟩))
        = trailing_true_run (List.replicate 4294967296 true)) := by
  rw [(record_boots_uint32 _ _).1, trailing_true_run_replicate]
  simp [UINT32_MOD]

/-- C1 (amended): for every finite sequence of `persist_state_record_boot(b)` calls with
fewer than 2^32 calls `b = true`, applied to a freshly reset and initialised store, the
consecutive counter equals the length of the trailing run of `true` calls and the total
counter equals the number of `true` calls; and on any store a call with `b = false` sets
the consecutive counter to 0 and leaves the total counter unchanged. -/
theorem record_boot_counters (s : PersistState) (calls : List Bool)
    (h : calls.count true < UINT32_MOD) :
    persist_state_get_consecutive_watchdog (record_boots calls (persist_before s))
        = trailing_true_run calls
      ∧ persist_state_get_total_watchdog (record_boots calls (persist_before s))
        = calls.count true
      ∧ ∀ st : PersistState,
          persist_state_get_consecutive_watchdog (persist_state_record_boot false st) = 0
          ∧ persist_state_get_total_watchdog (persist_state_record_boot false st)
            = persist_state_get_total_watchdog st := by
  obtain ⟨h1, h2⟩ := record_boots_uint32 calls s
  have hle := trailing_true_run_le_count calls
  refine ⟨?_, ?_, ?_⟩
  · rw [h1]; exact Nat.mod_eq_of_lt (lt_of_le_of_lt hle h)
  · rw [h2]; exact Nat.mod_eq_of_lt h
  · intro st
    simp [persist_state_record_boot, persist_commit,
      persist_state_get_consecutive_watchdog, persist_state_get_total_watchdog]

/-- C1 witness: the sequence of `test_watchdog_counters` (true, true, false). -/
theorem record_boot_counters_witness :
    [true, true, false].count true < UINT32_MOD
      ∧ persist_state_get_consecutive_watchdog
          (record_boots [true, true, false] (persist_before ⟨FaultRecord.zero, none⟩))
        = trailing_true_run [true, true, false]
      ∧ persist_state_get_total_watchdog
          (record_boots [true, true, false] (persist_before ⟨FaultRecord.zero, none⟩))
        = [true, true, false].count true :=
  ⟨by decide,
    (record_boot_counters ⟨FaultRecord.zero, none⟩ [true, true, false] (by decide)).1,
    (record_boot_counters ⟨FaultRecord.zero, none⟩ [true, true, false] (by decide)).2.1⟩

/-- C2: from the fresh store, with `1 ≤ THRESHOLD` a `uint32` constant, fallback is
inactive after `THRESHOLD - 1` consecutive `persist_state_record_boot(true)` calls, active
after the `THRESHOLD`-th, and inactive again after one `persist_state_record_boot(false)`,
while the total counter is `THRESHOLD` before and after that last call. -/
theorem fallback_activation (s : PersistState) (threshold : Nat) (h1 : 1 ≤ threshold)
    (h2 : threshold < UINT32_MOD) :
    persist_state_is_fallback_active threshold
        (record_boots (List.replicate (threshold - 1) true) (persist_before s)) = false
      ∧ persist_state_is_fallback_active threshold
          (persist_state_record_boot true
            (record_boots (List.replicate (threshold - 1) true) (persist_before s))) = true
      ∧ persist_state_is_fallback_active threshold
          (persist_state_record_boot false (persist_state_record_boot true
            (record_boots (List.replicate (threshold - 1) true) (persist_before s)))) = false
      ∧ persist_state_get_total_watchdog
          (persist_state_record_boot true
            (record_boots (List.replicate (threshold - 1) true) (persist_before s)))
          = threshold
      ∧ persist_state_get_total_watchdog
          (persist_state_record_boot false (persist_state_record_boot true
            (record_boots (List.replicate (threshold - 1) true) (persist_before s))))
          = threshold := by
  obtain ⟨hc, ht⟩ := record_boots_uint32 (List.replicate (threshold - 1) true) s
  rw [trailing_true_run_replicate] at hc
  rw [List.count_replicate_self] at ht
  simp only [persist_state_get_consecutive_watchdog, persist_state_get_total_watchdog,
    UINT32_MOD] at hc ht h2
  simp only [persist_state_is_fallback_active, persist_state_record_boot, persist_commit,
    persist_state_get_total_watchdog, hc, ht, UINT32_MOD, if_true, Bool.false_eq_true,
    if_false, decide_eq_true_eq, decide_eq_false_iff_not]
  omega

/-- C2 witness: `test_fallback_activation` with a threshold of 3. -/
theorem fallback_activation_witness :
    1 ≤ 3 ∧ 3 < UINT32_MOD
      ∧ persist_state_is_fallback_active 3
          (record_boots (List.replicate (3 - 1) true)
            (persist_before ⟨FaultRecord.zero, none⟩)) = false
      ∧ persist_state_is_fallback_active 3
          (persist_state_record_boot true
            (record_boots (List.replicate (3 - 1) true)
              (persist_before ⟨FaultRecord.zero, none⟩))) = true :=
  ⟨by decide, by decide,
    (fallback_activation ⟨FaultRecord.zero, none⟩ 3 (by decide) (by decide)).1,
    (fallback_activation ⟨FaultRecord.zero, none⟩ 3 (by decide) (by decide)).2.1⟩

/-- C3: override round trip.  For every `uint32` value `ms`, after a successful
`persist_state_set_watchdog_override(ms)` the getter returns `ms`; it still returns `ms`
after `persist_state_test_reload()` followed by a successful `persist_state_init()`; a
successful `persist_state_set_watchdog_override(0)` then makes it return 0; and on the
fresh store the getter returns the default 0. -/
theorem override_round_trip (s s1 s3 : PersistState) (ms : Nat) (w r w0 : Bool)
    (hms : ms < UINT32_MOD)
    (hset : persist_state_set_watchdog_override w ms s = .ok s1)
    (hinit : (persist_state_init r (persist_state_test_reload s1)).1 = 0)
    (hclear : persist_state_set_watchdog_override w0 0
        (persist_state_init r (persist_state_test_reload s1)).2 = .ok s3) :
    persist_state_get_watchdog_override s1 = ms
      ∧ persist_state_get_watchdog_override
          (persist_state_init r (persist_state_test_reload s1)).2 = ms
      ∧ persist_state_get_watchdog_override s3 = 0
      ∧ persist_state_get_watchdog_override (persist_before s) = 0 := by
  have hmod : ms % UINT32_MOD = ms := Nat.mod_eq_of_lt hms
  cases w with
  | false => simp [persist_state_set_watchdog_override] at hset
  | true =>
    cases r with
    | false => simp [persist_state_init] at hinit
    | true =>
      cases w0 with
      | false => simp [persist_state_set_watchdog_override] at hclear
      | true =>
        simp only [persist_state_set_watchdog_override, if_true, Except.ok.injEq] at hset
        subst hset
        simp only [persist_state_set_watchdog_override, if_true, Except.ok.injEq] at hclear
        subst hclear
        simp [persist_state_get_watchdog_override, persist_commit, persist_state_init,
          persist_state_test_reload, persist_before, persist_state_test_reset,
          FaultRecord.zero, hmod]

/-- C3 witness: `test_watchdog_override_persistence`, `ms = 2500` on the fresh store. -/
theorem override_round_trip_witness :
    persist_state_get_watchdog_override (⟨⟨0, 0, 2500⟩, some ⟨0, 0, 2500⟩⟩ : PersistState)
        = 2500
      ∧ persist_state_get_watchdog_override
          (persist_state_init true (persist_state_test_reload
            (⟨⟨0, 0, 2500⟩, some ⟨0, 0, 2500⟩⟩ : PersistState))).2 = 2500
      ∧ persist_state_get_watchdog_override (⟨⟨0, 0, 0⟩, some ⟨0, 0, 0⟩⟩ : PersistState) = 0
      ∧ persist_state_get_watchdog_override (persist_before ⟨FaultRecord.zero, none⟩) = 0 :=
  override_round_trip (persist_before ⟨FaultRecord.zero, none⟩)
    ⟨⟨0, 0, 2500⟩, some ⟨0, 0, 2500⟩⟩ ⟨⟨0, 0, 0⟩, some ⟨0, 0, 0⟩⟩ 2500 true true true
    (by decide) (by rfl) (by rfl) (by rfl)

/-! ## `main`: shape of the trace -/

@[simp]
theorem emit_trace (st : BootState) (e : Event) :
    (st.emit e).trace = st.trace ++ [e] := rfl

@[simp]
theorem emit_persist (st : BootState) (e : Event) :
    (st.emit e).persist = st.persist := rfl

@[simp]
theorem emit_recovery (st : BootState) (e : Event) :
    (st.emit e).recovery = st.recovery := rfl

@[simp]
theorem emit_if_trace (st : BootState) (c : Bool) (e : Event) :
    (st.emit_if c e).trace = st.trace ++ (if c then [e] else []) := by
  cases c <;> simp [BootState.emit_if]

@[simp]
theorem emit_if_persist (st : BootState) (c : Bool) (e : Event) :
    (st.emit_if c e).persist = st.persist := by
  cases c <;> simp [BootState.emit_if]

@[simp]
theorem emit_if_recovery (st : BootState) (c : Bool) (e : Event) :
    (st.emit_if c e).recovery = st.recovery := by
  cases c <;> simp [BootState.emit_if]

theorem log_reset_cause_fst (env : BootEnv) (st : BootState) :
    (log_reset_cause env st).1 = reset_cause_of env := by
  unfold log_reset_cause reset_cause_of
  split <;> rfl

theorem log_reset_cause_trace (env : BootEnv) (st : BootState) :
    (log_reset_cause env st).2.trace = st.trace ++ reset_cause_calls env := by
  unfold log_reset_cause reset_cause_calls reset_cause_of
  split <;> simp_all

theorem log_reset_cause_persist (env : BootEnv) (st : BootState) :
    (log_reset_cause env st).2.persist = st.persist := by
  unfold log_reset_cause
  split <;> simp

theorem log_reset_cause_recovery (env : BootEnv) (st : BootState) :
    (log_reset_cause env st).2.recovery = st.recovery := by
  unfold log_reset_cause
  split <;> simp

theorem log_reset_history_trace (c : Nat) (st : BootState) :
    (log_reset_history c st).trace = st.trace ++
      (if c != 0 then
        [.persist_state_get_total_watchdog (persist_state_get_total_watchdog st.persist),
          LOG_EVT .WRN "WATCHDOG" "RESET_HISTORY" "consecutive=%u,total=%u"
            [(c : Int), (persist_state_get_total_watchdog st.persist : Int)]]
       else []) := by
  unfold log_reset_history
  split <;> simp

theorem log_reset_history_persist (c : Nat) (st : BootState) :
    (log_reset_history c st).persist = st.persist := by
  unfold log_reset_history
  split <;> simp

theorem log_reset_history_recovery (c : Nat) (st : BootState) :
    (log_reset_history c st).recovery = st.recovery := by
  unfold log_reset_history
  split <;> simp

theorem enter_safe_mode_trace (fb : Bool) (st : BootState) :
    (enter_safe_mode fb st).trace = st.trace ++
      (if fb then
        [LOG_EVT_SIMPLE .ERR "SAFE_MODE" "ENTERED", .persist_state_clear_watchdog_counter,
          LOG_EVT_SIMPLE .INF "WATCHDOG" "COUNTER_CLEARED"]
       else []) := by
  cases fb <;> simp [enter_safe_mode, BootState.call_clear_watchdog_counter]

theorem enter_safe_mode_persist (fb : Bool) (st : BootState) :
    (enter_safe_mode fb st).persist =
      if fb then persist_state_clear_watchdog_counter st.persist else st.persist := by
  cases fb <;> simp [enter_safe_mode, BootState.call_clear_watchdog_counter]

theorem enter_safe_mode_recovery (fb : Bool) (st : BootState) :
    (enter_safe_mode fb st).recovery = st.recovery := by
  cases fb <;> simp [enter_safe_mode, BootState.call_clear_watchdog_counter]

theorem arm_and_start_trace (cfg : Config) (env : BootEnv) (fb : Bool) (steady retune : Nat)
    (st : BootState) :
    (arm_and_start cfg env fb steady retune st).trace = st.trace ++
      ([.watchdog_ctrl_init cfg.CONFIG_APP_WATCHDOG_BOOT_TIMEOUT_MS env.watchdog_init_rc]
        ++ if env.watchdog_init_rc != 0 then
            [LOG_EVT .ERR "WATCHDOG" "INIT_FAIL" "rc=%d" [env.watchdog_init_rc],
              LOG_EVT_SIMPLE .ERR "RECOVERY" "WATCHDOG_INIT_FAIL",
              .recovery_request .RECOVERY_REASON_WATCHDOG_INIT_FAIL]
          else
            [LOG_EVT .INF "WATCHDOG" "CONFIGURED" "boot_ms=%u,steady_ms=%u,retune_delay_ms=%u"
                [(cfg.CONFIG_APP_WATCHDOG_BOOT_TIMEOUT_MS : Int), (steady : Int),
                  (retune : Int)]]
              ++ (if fb then
                    [LOG_EVT_SIMPLE .WRN "WATCHDOG" "RETUNE_DISABLED_SAFE_MODE"] else [])
              ++ [.k_thread_create_health fb,
                  .k_thread_name_set (if fb then "Health Thread (fallback)"
                    else "Health Thread"),
                  .supervisor_start steady retune (!fb)]
              ++ (if cfg.CONFIG_APP_ENABLE_UART_COMMANDS then
                    [.uart_commands_start fb] else [])
              ++ [.k_msleep 120, LOG_EVT_SIMPLE .INF "APP" "READY"]) := by
  by_cases h : env.watchdog_init_rc = 0 <;>
    simp [arm_and_start, BootState.call_recovery_request, h]

theorem arm_and_start_persist (cfg : Config) (env : BootEnv) (fb : Bool)
    (steady retune : Nat) (st : BootState) :
    (arm_and_start cfg env fb steady retune st).persist = st.persist := by
  by_cases h : env.watchdog_init_rc = 0 <;>
    simp [arm_and_start, BootState.call_recovery_request, h]

theorem arm_and_start_recovery (cfg : Config) (env : BootEnv) (fb : Bool)
    (steady retune : Nat) (st : BootState) :
    (arm_and_start cfg env fb steady retune st).recovery =
      if env.watchdog_init_rc != 0 then
        recovery_request .RECOVERY_REASON_WATCHDOG_INIT_FAIL st.recovery
      else st.recovery := by
  by_cases h : env.watchdog_init_rc = 0 <;>
    simp [arm_and_start, BootState.call_recovery_request, h]

/-- The store `main` leaves behind. -/
theorem main_persist (cfg : Config) (env : BootEnv) (st : BootState) :
    (main cfg env st).persist = store_after_main cfg env st.persist := by
  simp only [main, arm_and_start_persist, emit_persist, emit_if_persist,
    BootState.call_schedule_safe_mode_reboot, BootState.call_recovery_start,
    enter_safe_mode_persist, log_reset_history_persist, BootState.call_record_boot,
    log_reset_cause_persist, log_reset_cause_fst, BootState.call_persist_state_init,
    store_after_main, fallback_mode_of, store_after_record_boot, watchdog_reset_of]

/-- The recovery controller `main` leaves behind. -/
theorem main_recovery (cfg : Config) (env : BootEnv) (st : BootState) :
    (main cfg env st).recovery =
      if env.watchdog_init_rc != 0 then
        recovery_request .RECOVERY_REASON_WATCHDOG_INIT_FAIL
          (recovery_schedule_safe_mode_reboot
            (if fallback_mode_of cfg env st.persist then
              cfg.CONFIG_APP_SAFE_MODE_REBOOT_DELAY_MS else 0)
            (recovery_start st.recovery))
      else
        recovery_schedule_safe_mode_reboot
          (if fallback_mode_of cfg env st.persist then
            cfg.CONFIG_APP_SAFE_MODE_REBOOT_DELAY_MS else 0)
          (recovery_start st.recovery) := by
  simp only [main, arm_and_start_recovery, emit_persist, emit_if_persist, emit_recovery,
    emit_if_recovery,
    BootState.call_schedule_safe_mode_reboot, BootState.call_recovery_start,
    enter_safe_mode_persist, enter_safe_mode_recovery, log_reset_history_persist,
    log_reset_history_recovery, BootState.call_record_boot,
    log_reset_cause_persist, log_reset_cause_recovery, log_reset_cause_fst,
    BootState.call_persist_state_init,
    store_after_main, fallback_mode_of, store_after_record_boot, watchdog_reset_of]

/-- The calls `main` makes, oldest first. -/
theorem main_trace (cfg : Config) (env : BootEnv) (st : BootState) :
    (main cfg env st).trace = st.trace ++
      (history_calls cfg env st.persist ++ recovery_calls cfg env st.persist
        ++ start_calls cfg env st.persist) := by
  simp only [main, arm_and_start_trace, emit_persist, emit_if_persist, emit_trace,
    emit_if_trace,
    BootState.call_schedule_safe_mode_reboot, BootState.call_recovery_start,
    enter_safe_mode_persist, enter_safe_mode_trace, log_reset_history_persist,
    log_reset_history_trace, BootState.call_record_boot,
    log_reset_cause_persist, log_reset_cause_trace, log_reset_cause_fst,
    BootState.call_persist_state_init, history_calls, recovery_calls, start_calls,
    store_after_main, fallback_mode_of, store_after_record_boot, watchdog_reset_of,
    List.append_assoc, List.singleton_append, List.cons_append, List.nil_append]

/-- The calls of one boot, oldest first. -/
theorem boot_trace (cfg : Config) (env : BootEnv) (p : PersistState) :
    (boot cfg env p).trace =
      history_calls cfg env (persist_state_test_reload p)
        ++ recovery_calls cfg env (persist_state_test_reload p)
        ++ start_calls cfg env (persist_state_test_reload p) := by
  simp [boot, main_trace]


/-- Only the calls satisfying `p` or `q` matter for `called_before p q`. -/
theorem called_before_filter (p q : Event → Bool) (tr : List Event) :
    called_before p q tr = called_before p q (tr.filter (fun e => p e || q e)) := by
  induction tr with
  | nil => rfl
  | cons e es ih =>
    cases hp : p e <;> cases hq : q e <;>
      simp [called_before, List.filter_cons, hp, hq, ih]

theorem filter_ite (q : Event → Bool) (c : Prop) [Decidable c] (l1 l2 : List Event) :
    (if c then l1 else l2).filter q = if c then l1.filter q else l2.filter q := by
  split <;> rfl

/-- The fallback reads of one boot. -/
theorem boot_fallback_reads (cfg : Config) (env : BootEnv) (p : PersistState) :
    (boot cfg env p).trace.filter Event.is_fallback_read =
      [.persist_state_is_fallback_active
        (fallback_mode_of cfg env (persist_state_test_reload p))] := by
  simp [boot_trace, history_calls, recovery_calls, start_calls, reset_cause_calls, LOG_EVT,
    LOG_EVT_SIMPLE, List.filter_append, List.filter_cons, filter_ite,
    Event.is_fallback_read]

/-- The override reads of one boot. -/
theorem boot_override_reads (cfg : Config) (env : BootEnv) (p : PersistState) :
    (boot cfg env p).trace.filter Event.is_override_read =
      [.persist_state_get_watchdog_override
        (persist_state_get_watchdog_override
          (store_after_main cfg env (persist_state_test_reload p)))] := by
  simp [boot_trace, history_calls, recovery_calls, start_calls, reset_cause_calls, LOG_EVT,
    LOG_EVT_SIMPLE, List.filter_append, List.filter_cons, filter_ite,
    Event.is_override_read]

/-- The consecutive-counter reads of one boot. -/
theorem boot_consecutive_reads (cfg : Config) (env : BootEnv) (p : PersistState) :
    (boot cfg env p).trace.filter Event.is_consecutive_read =
      [.persist_state_get_consecutive_watchdog
        (persist_state_get_consecutive_watchdog
          (store_after_record_boot env (persist_state_test_reload p)))] := by
  simp [boot_trace, history_calls, recovery_calls, start_calls, reset_cause_calls, LOG_EVT,
    LOG_EVT_SIMPLE, List.filter_append, List.filter_cons, filter_ite,
    Event.is_consecutive_read]

/-- The only fallback flag in the trace is the one `main` read. -/
theorem fallback_read_unique (cfg : Config) (env : BootEnv) (p : PersistState) (fb : Bool)
    (h : Event.persist_state_is_fallback_active fb ∈ (boot cfg env p).trace) :
    fb = fallback_mode_of cfg env (persist_state_test_reload p) := by
  have h1 : Event.persist_state_is_fallback_active fb ∈
      (boot cfg env p).trace.filter Event.is_fallback_read :=
    List.mem_filter.mpr ⟨h, rfl⟩
  rw [boot_fallback_reads] at h1
  simpa using h1

/-- The only override value in the trace is the one `main` read. -/
theorem override_read_unique (cfg : Config) (env : BootEnv) (p : PersistState) (ov : Nat)
    (h : Event.persist_state_get_watchdog_override ov ∈ (boot cfg env p).trace) :
    ov = persist_state_get_watchdog_override
      (store_after_main cfg env (persist_state_test_reload p)) := by
  have h1 : Event.persist_state_get_watchdog_override ov ∈
      (boot cfg env p).trace.filter Event.is_override_read :=
    List.mem_filter.mpr ⟨h, rfl⟩
  rw [boot_override_reads] at h1
  simpa using h1

/-- The `supervisor_start` calls of one boot. -/
theorem boot_supervisor_starts (cfg : Config) (env : BootEnv) (p : PersistState) :
    (boot cfg env p).trace.filter Event.is_supervisor_start =
      if env.watchdog_init_rc != 0 then []
      else
        [.supervisor_start
          (steady_timeout cfg (fallback_mode_of cfg env (persist_state_test_reload p))
            (persist_state_get_watchdog_override
              (store_after_main cfg env (persist_state_test_reload p))))
          (retune_delay cfg (fallback_mode_of cfg env (persist_state_test_reload p)))
          (!fallback_mode_of cfg env (persist_state_test_reload p))] := by
  simp [boot_trace, history_calls, recovery_calls, start_calls, reset_cause_calls, LOG_EVT,
    LOG_EVT_SIMPLE, List.filter_append, List.filter_cons, filter_ite,
    Event.is_supervisor_start]

/-! ## `main`: watchdog init failure, call order, timeouts, safe-mode reboot -/

/-- C5: when `watchdog_ctrl_init` returns non-zero, `main` calls
`recovery_request(RECOVERY_REASON_WATCHDOG_INIT_FAIL)` as its last call and never creates
the health thread, calls `supervisor_start` or calls `uart_commands_start`; when it returns
0, `main` never calls `recovery_request` and calls `supervisor_start` exactly once. -/
theorem watchdog_init_failure_is_fatal (cfg : Config) (env : BootEnv) (p : PersistState) :
    if env.watchdog_init_rc ≠ 0 then
      Event.recovery_request .RECOVERY_REASON_WATCHDOG_INIT_FAIL ∈ (boot cfg env p).trace
        ∧ (boot cfg env p).trace.getLast?
            = some (.recovery_request .RECOVERY_REASON_WATCHDOG_INIT_FAIL)
        ∧ (boot cfg env p).trace.countP Event.is_thread_create = 0
        ∧ (boot cfg env p).trace.countP Event.is_supervisor_start = 0
        ∧ (boot cfg env p).trace.countP Event.is_uart_start = 0
    else
      (boot cfg env p).trace.countP Event.is_recovery_request = 0
        ∧ (boot cfg env p).trace.countP Event.is_supervisor_start = 1 := by
  by_cases h : env.watchdog_init_rc = 0
  · simp [h, List.countP_eq_length_filter, boot_trace, history_calls, recovery_calls,
      start_calls, reset_cause_calls, LOG_EVT, LOG_EVT_SIMPLE, List.filter_append,
      List.filter_cons, filter_ite, Event.is_supervisor_start, Event.is_recovery_request]
  · have hs : start_calls cfg env (persist_state_test_reload p) =
        [LOG_EVT .ERR "WATCHDOG" "INIT_FAIL" "rc=%d" [env.watchdog_init_rc],
          LOG_EVT_SIMPLE .ERR "RECOVERY" "WATCHDOG_INIT_FAIL"]
          ++ [.recovery_request .RECOVERY_REASON_WATCHDOG_INIT_FAIL] := by
      simp [start_calls, h]
    have hlast : (boot cfg env p).trace.getLast?
        = some (.recovery_request .RECOVERY_REASON_WATCHDOG_INIT_FAIL) := by
      rw [boot_trace, hs, ← List.append_assoc, List.getLast?_concat]
    have hmem : Event.recovery_request .RECOVERY_REASON_WATCHDOG_INIT_FAIL
        ∈ (boot cfg env p).trace := by
      rw [boot_trace, hs]; simp
    rw [if_pos h]
    refine ⟨hmem, hlast, ?_, ?_, ?_⟩ <;>
      simp [h, List.countP_eq_length_filter, boot_trace, history_calls, recovery_calls,
        start_calls, reset_cause_calls, LOG_EVT, LOG_EVT_SIMPLE, List.filter_append,
        List.filter_cons, filter_ite, Event.is_supervisor_start, Event.is_thread_create,
        Event.is_uart_start]

/-- C6: in every execution of `main`, `persist_state_init` and then
`persist_state_record_boot` are called before the (single) read of
`persist_state_is_fallback_active`, and `recovery_start` is called before the (single)
`watchdog_ctrl_init` and before any `recovery_request`, so that the request issued on a
watchdog init failure reaches a started controller and is the reset in flight. -/
theorem boot_call_order (cfg : Config) (env : BootEnv) (p : PersistState) :
    called_before Event.is_persist_state_init Event.is_record_boot (boot cfg env p).trace
        = true
      ∧ called_before Event.is_record_boot Event.is_fallback_read (boot cfg env p).trace
        = true
      ∧ called_before Event.is_persist_state_init Event.is_fallback_read
          (boot cfg env p).trace = true
      ∧ (boot cfg env p).trace.countP Event.is_fallback_read = 1
      ∧ called_before Event.is_recovery_start Event.is_watchdog_init (boot cfg env p).trace
        = true
      ∧ (boot cfg env p).trace.countP Event.is_watchdog_init = 1
      ∧ called_before Event.is_recovery_start Event.is_recovery_request
          (boot cfg env p).trace = true
      ∧ (boot cfg env p).recovery.reset_in_flight
          = (if env.watchdog_init_rc ≠ 0 then
              some .RECOVERY_REASON_WATCHDOG_INIT_FAIL else none) := by
  refine ⟨?_, ?_, ?_, ?_, ?_, ?_, ?_, ?_⟩
  · rw [called_before_filter]
    simp [boot_trace, history_calls, recovery_calls, start_calls, reset_cause_calls,
      LOG_EVT, LOG_EVT_SIMPLE, List.filter_append, List.filter_cons, filter_ite,
      Event.is_persist_state_init, Event.is_record_boot, called_before]
  · rw [called_before_filter]
    simp [boot_trace, history_calls, recovery_calls, start_calls, reset_cause_calls,
      LOG_EVT, LOG_EVT_SIMPLE, List.filter_append, List.filter_cons, filter_ite,
      Event.is_record_boot, Event.is_fallback_read, called_before]
  · rw [called_before_filter]
    simp [boot_trace, history_calls, recovery_calls, start_calls, reset_cause_calls,
      LOG_EVT, LOG_EVT_SIMPLE, List.filter_append, List.filter_cons, filter_ite,
      Event.is_persist_state_init, Event.is_fallback_read, called_before]
  · simp [List.countP_eq_length_filter, boot_fallback_reads]
  · rw [called_before_filter]
    simp [boot_trace, history_calls, recovery_calls, start_calls, reset_cause_calls,
      LOG_EVT, LOG_EVT_SIMPLE, List.filter_append, List.filter_cons, filter_ite,
      Event.is_recovery_start, Event.is_watchdog_init, called_before]
  · simp [List.countP_eq_length_filter, boot_trace, history_calls, recovery_calls,
      start_calls, reset_cause_calls, LOG_EVT, LOG_EVT_SIMPLE, List.filter_append,
      List.filter_cons, filter_ite, Event.is_watchdog_init]
  · rw [called_before_filter]
    simp [boot_trace, history_calls, recovery_calls, start_calls, reset_cause_calls,
      LOG_EVT, LOG_EVT_SIMPLE, List.filter_append, List.filter_cons, filter_ite,
      Event.is_recovery_start, Event.is_recovery_request, called_before]
  · by_cases h : env.watchdog_init_rc = 0 <;>
      simp [boot, main_recovery, h, recovery_request, recovery_schedule_safe_mode_reboot,
        recovery_start, RecoveryState.fresh, apply_ite RecoveryState.started,
        apply_ite RecoveryState.reset_in_flight]

/-- C8: on a boot where `watchdog_ctrl_init` succeeds, with `fb` the fallback flag and `ov`
the override that `main` read, the only `supervisor_start` call gets as steady timeout
`CONFIG_APP_WATCHDOG_STEADY_TIMEOUT_MS` if `ov = 0` and `ov` otherwise, raised to the
maximum of that value and `CONFIG_APP_WATCHDOG_BOOT_TIMEOUT_MS` when `fb` is true; that
timeout is non-zero unless the default constant is 0. -/
theorem steady_timeout_passed (cfg : Config) (env : BootEnv) (p : PersistState) (fb : Bool)
    (ov : Nat) (hrc : env.watchdog_init_rc = 0)
    (hfb : Event.persist_state_is_fallback_active fb ∈ (boot cfg env p).trace)
    (hov : Event.persist_state_get_watchdog_override ov ∈ (boot cfg env p).trace) :
    (boot cfg env p).trace.filter Event.is_supervisor_start
        = [.supervisor_start
            (if fb then
              max (if ov = 0 then cfg.CONFIG_APP_WATCHDOG_STEADY_TIMEOUT_MS else ov)
                cfg.CONFIG_APP_WATCHDOG_BOOT_TIMEOUT_MS
             else (if ov = 0 then cfg.CONFIG_APP_WATCHDOG_STEADY_TIMEOUT_MS else ov))
            (if fb then 0 else cfg.CONFIG_APP_WATCHDOG_RETUNE_DELAY_MS)
            (!fb)]
      ∧ (cfg.CONFIG_APP_WATCHDOG_STEADY_TIMEOUT_MS = 0
          ∨ (if fb then
              max (if ov = 0 then cfg.CONFIG_APP_WATCHDOG_STEADY_TIMEOUT_MS else ov)
                cfg.CONFIG_APP_WATCHDOG_BOOT_TIMEOUT_MS
             else (if ov = 0 then cfg.CONFIG_APP_WATCHDOG_STEADY_TIMEOUT_MS else ov)) ≠ 0) := by
  have h1 := fallback_read_unique cfg env p fb hfb
  have h2 := override_read_unique cfg env p ov hov
  constructor
  · rw [boot_supervisor_starts, ← h1, ← h2]
    have hmax : ∀ a b : Nat, MAX a b = max a b := by
      intro a b; unfold MAX; split <;> omega
    cases fb <;> by_cases h0 : ov = 0 <;>
      simp [hrc, steady_timeout, retune_delay, hmax, h0]
  · by_cases hd : cfg.CONFIG_APP_WATCHDOG_STEADY_TIMEOUT_MS = 0
    · exact Or.inl hd
    · right
      cases fb <;> by_cases h0 : ov = 0 <;> simp [h0] <;> omega

/-- C8 witness: a clean power-on boot of the sample configuration with a stored override of
2500 ms passes 2500 to `supervisor_start`. -/
theorem steady_timeout_passed_witness :
    (boot sample_config ⟨true, 0, some RESET_POR, 0⟩
        ⟨FaultRecord.zero, some ⟨0, 0, 2500⟩⟩).trace.filter Event.is_supervisor_start
      = [.supervisor_start 2500 5000 true] :=
  (steady_timeout_passed sample_config ⟨true, 0, some RESET_POR, 0⟩
    ⟨FaultRecord.zero, some ⟨0, 0, 2500⟩⟩ false 2500 rfl (by decide) (by decide)).1

/-- C9: with `fb` the fallback flag `main` read, `main` calls
`recovery_schedule_safe_mode_reboot` exactly once, after `recovery_start`, with delay
`CONFIG_APP_SAFE_MODE_REBOOT_DELAY_MS` if `fb` and 0 otherwise; the deferred reset is armed
after `main` exactly when `fb` is true and that constant is non-zero. -/
theorem safe_mode_reboot_scheduled (cfg : Config) (env : BootEnv) (p : PersistState)
    (fb : Bool)
    (hfb : Event.persist_state_is_fallback_active fb ∈ (boot cfg env p).trace) :
    (boot cfg env p).trace.filter Event.is_schedule_reboot
        = [.recovery_schedule_safe_mode_reboot
            (if fb then cfg.CONFIG_APP_SAFE_MODE_REBOOT_DELAY_MS else 0)]
      ∧ called_before Event.is_recovery_start Event.is_schedule_reboot
          (boot cfg env p).trace = true
      ∧ (boot cfg env p).recovery.safe_mode_timer_ms
          = (if fb = true ∧ cfg.CONFIG_APP_SAFE_MODE_REBOOT_DELAY_MS ≠ 0 then
              some cfg.CONFIG_APP_SAFE_MODE_REBOOT_DELAY_MS else none) := by
  have h1 := fallback_read_unique cfg env p fb hfb
  refine ⟨?_, ?_, ?_⟩
  · rw [h1]
    simp [boot_trace, history_calls, recovery_calls, start_calls, reset_cause_calls,
      LOG_EVT, LOG_EVT_SIMPLE, List.filter_append, List.filter_cons, filter_ite,
      Event.is_schedule_reboot]
  · rw [called_before_filter]
    simp [boot_trace, history_calls, recovery_calls, start_calls, reset_cause_calls,
      LOG_EVT, LOG_EVT_SIMPLE, List.filter_append, List.filter_cons, filter_ite,
      Event.is_recovery_start, Event.is_schedule_reboot, called_before]
  · have hm : (boot cfg env p).recovery = _ := main_recovery cfg env _
    rw [hm]
    simp only [boot, ← h1]
    by_cases h : env.watchdog_init_rc = 0 <;> cases fb <;>
      by_cases hd : cfg.CONFIG_APP_SAFE_MODE_REBOOT_DELAY_MS = 0 <;>
      simp [h, hd, recovery_request, recovery_schedule_safe_mode_reboot, recovery_start,
        RecoveryState.fresh]

/-- C9 witness: the third watchdog-caused boot of the sample configuration (threshold 3)
is a fallback boot and arms the 60000 ms safe-mode reboot. -/
theorem safe_mode_reboot_scheduled_witness :
    (boot sample_config watchdog_cycle.env
        ⟨FaultRecord.zero, some ⟨2, 2, 0⟩⟩).recovery.safe_mode_timer_ms = some 60000 :=
  (safe_mode_reboot_scheduled sample_config watchdog_cycle.env
    ⟨FaultRecord.zero, some ⟨2, 2, 0⟩⟩ true (by decide)).2.2

/-! ## Boot sequences: the fallback boot forgives the streak -/

theorem fallback_entered_eq (cfg : Config) (env : BootEnv) (p : PersistState) :
    fallback_entered (boot cfg env p)
      = fallback_mode_of cfg env (persist_state_test_reload p) := by
  unfold fallback_entered
  cases hfb : fallback_mode_of cfg env (persist_state_test_reload p)
  · rw [Bool.eq_false_iff]
    intro hc
    have hm : Event.persist_state_is_fallback_active true ∈ (boot cfg env p).trace := by
      simpa using hc
    have := fallback_read_unique cfg env p true hm
    rw [hfb] at this
    cases this
  · have h1 : Event.persist_state_is_fallback_active true ∈
        (boot cfg env p).trace.filter Event.is_fallback_read := by
      rw [boot_fallback_reads, hfb]; simp
    have h2 := (List.mem_filter.mp h1).1
    simpa using h2

theorem boot_persist (cfg : Config) (env : BootEnv) (p : PersistState) :
    (boot cfg env p).persist = store_after_main cfg env (persist_state_test_reload p) := by
  simp [boot, main_persist]

/-- What `main` sees as consecutive counter after recording the boot: the stored counter
plus one on a watchdog reset when storage is readable. -/
theorem consecutive_after_record_boot (env : BootEnv) (p : PersistState) :
    persist_state_get_consecutive_watchdog
        (store_after_record_boot env (persist_state_test_reload p))
      = if watchdog_reset_of env then
          ((if env.persist_read_ok then stored_consecutive p else 0) + 1) % UINT32_MOD
        else 0 := by
  cases hw : watchdog_reset_of env <;> cases hr : env.persist_read_ok <;>
    simp [store_after_record_boot, persist_state_record_boot, persist_commit,
      persist_state_init, persist_state_test_reload, persist_state_get_consecutive_watchdog,
      stored_consecutive, hw, hr, FaultRecord.zero]

theorem stored_consecutive_after_main (cfg : Config) (env : BootEnv) (p : PersistState) :
    stored_consecutive (store_after_main cfg env (persist_state_test_reload p))
      = if fallback_mode_of cfg env (persist_state_test_reload p) then 0
        else persist_state_get_consecutive_watchdog
          (store_after_record_boot env (persist_state_test_reload p)) := by
  unfold store_after_main
  cases hfb : fallback_mode_of cfg env (persist_state_test_reload p)
  · cases hw : watchdog_reset_of env <;>
      simp [store_after_record_boot, persist_state_record_boot, persist_commit,
        stored_consecutive, persist_state_get_consecutive_watchdog, hw]
  · simp [persist_state_clear_watchdog_counter, persist_commit, stored_consecutive]

theorem run_cycle_fst (cfg : Config) (c : BootCycle) (p : PersistState) :
    (run_cycle cfg c p).1 = fallback_mode_of cfg c.env (persist_state_test_reload p) := by
  simp [run_cycle, fallback_entered_eq]

theorem run_cycle_stored (cfg : Config) (c : BootCycle) (p : PersistState) :
    stored_consecutive (run_cycle cfg c p).2
      = if c.supervisor_cleared then 0
        else stored_consecutive
          (store_after_main cfg c.env (persist_state_test_reload p)) := by
  cases hc : c.supervisor_cleared <;>
    simp [run_cycle, boot_persist, hc, persist_state_clear_watchdog_counter, persist_commit,
      stored_consecutive]

/-- A fallback boot leaves a stored consecutive counter of 0. -/
theorem run_cycle_fallback_clears (cfg : Config) (c : BootCycle) (p : PersistState)
    (h : (run_cycle cfg c p).1 = true) : stored_consecutive (run_cycle cfg c p).2 = 0 := by
  rw [run_cycle_fst] at h
  rw [run_cycle_stored, stored_consecutive_after_main, h]
  simp

/-- With a threshold of at least 2, a boot that starts from a stored consecutive counter of
0 does not enter fallback mode. -/
theorem no_fallback_from_cleared (cfg : Config) (env : BootEnv) (p : PersistState)
    (hT : 2 ≤ cfg.CONFIG_APP_RESET_WATCHDOG_THRESHOLD) (h0 : stored_consecutive p = 0) :
    fallback_mode_of cfg env (persist_state_test_reload p) = false := by
  have hc := consecutive_after_record_boot env p
  rw [h0] at hc
  simp only [fallback_mode_of, persist_state_is_fallback_active, decide_eq_false_iff_not,
    not_le]
  simp only [persist_state_get_consecutive_watchdog] at hc
  rw [hc]
  cases watchdog_reset_of env <;> simp [UINT32_MOD] <;> omega

theorem run_boots_cons (cfg : Config) (c : BootCycle) (cs : List BootCycle)
    (p : PersistState) :
    run_boots cfg (c :: cs) p
      = ((run_cycle cfg c p).1 :: (run_boots cfg cs (run_cycle cfg c p).2).1,
          (run_boots cfg cs (run_cycle cfg c p).2).2) := rfl

/-- With a threshold of at least 2, no two successive boots both enter fallback mode. -/
theorem no_two_successive_fallbacks (cfg : Config)
    (hT : 2 ≤ cfg.CONFIG_APP_RESET_WATCHDOG_THRESHOLD) (cycles : List BootCycle)
    (p : PersistState) :
    List.Chain' (fun a b : Bool => ¬ (a = true ∧ b = true)) (run_boots cfg cycles p).1 := by
  induction cycles generalizing p with
  | nil => simp [run_boots]
  | cons c cs ih =>
    rw [run_boots_cons]
    refine List.Chain'.cons' (ih _) ?_
    intro y hy
    cases cs with
    | nil => simp [run_boots] at hy
    | cons c2 cs2 =>
      rw [run_boots_cons] at hy
      simp only [List.head?_cons, Option.mem_def, Option.some.injEq] at hy
      rintro ⟨h1, h2⟩
      have hz := run_cycle_fallback_clears cfg c p h1
      have hn := no_fallback_from_cleared cfg c2.env _ hT hz
      rw [← hy, run_cycle_fst, hn] at h2
      cases h2

/-- One watchdog-caused power cycle: the stored consecutive counter is incremented, or
cleared if the increment reaches the threshold. -/
theorem run_cycle_watchdog_stored (cfg : Config) (p : PersistState) :
    stored_consecutive (run_cycle cfg watchdog_cycle p).2
      = if cfg.CONFIG_APP_RESET_WATCHDOG_THRESHOLD ≤ (stored_consecutive p + 1) % UINT32_MOD
        then 0 else (stored_consecutive p + 1) % UINT32_MOD := by
  have hw : watchdog_reset_of watchdog_cycle.env = true := by decide
  have hc := consecutive_after_record_boot watchdog_cycle.env p
  rw [hw] at hc
  have hr : watchdog_cycle.env.persist_read_ok = true := rfl
  have hs : watchdog_cycle.supervisor_cleared = false := rfl
  simp only [hr, if_true] at hc
  rw [run_cycle_stored, stored_consecutive_after_main, hs]
  simp only [fallback_mode_of, persist_state_is_fallback_active, Bool.false_eq_true,
    if_false]
  simp only [persist_state_get_consecutive_watchdog] at hc ⊢
  simp only [hc, decide_eq_true_eq]

/-- One watchdog-caused power cycle enters fallback mode exactly when the incremented
stored counter reaches the threshold. -/
theorem run_cycle_watchdog_fst (cfg : Config) (p : PersistState) :
    (run_cycle cfg watchdog_cycle p).1
      = decide (cfg.CONFIG_APP_RESET_WATCHDOG_THRESHOLD
          ≤ (stored_consecutive p + 1) % UINT32_MOD) := by
  have hw : watchdog_reset_of watchdog_cycle.env = true := by decide
  have hc := consecutive_after_record_boot watchdog_cycle.env p
  rw [hw] at hc
  have hr : watchdog_cycle.env.persist_read_ok = true := rfl
  simp only [hr, if_true] at hc
  rw [run_cycle_fst]
  simp only [fallback_mode_of, persist_state_is_fallback_active]
  simp only [persist_state_get_consecutive_watchdog] at hc
  simp only [hc]

theorem run_boots_append (cfg : Config) (xs ys : List BootCycle) :
    ∀ p : PersistState,
      run_boots cfg (xs ++ ys) p
        = ((run_boots cfg xs p).1 ++ (run_boots cfg ys (run_boots cfg xs p).2).1,
            (run_boots cfg ys (run_boots cfg xs p).2).2) := by
  induction xs with
  | nil => intro p; simp [run_boots]
  | cons c cs ih =>
    intro p
    rw [List.cons_append, run_boots_cons, run_boots_cons, ih]
    simp

/-- A run of watchdog-caused power cycles that keeps the stored consecutive counter below
the threshold never enters fallback mode and counts every boot. -/
theorem watchdog_run_counts (cfg : Config)
    (h32 : cfg.CONFIG_APP_RESET_WATCHDOG_THRESHOLD < UINT32_MOD) (n : Nat) :
    ∀ p : PersistState,
      stored_consecutive p + n < cfg.CONFIG_APP_RESET_WATCHDOG_THRESHOLD →
      (run_boots cfg (List.replicate n watchdog_cycle) p).1 = List.replicate n false
        ∧ stored_consecutive (run_boots cfg (List.replicate n watchdog_cycle) p).2
          = stored_consecutive p + n := by
  induction n with
  | zero => intro p _; simp [run_boots]
  | succ n ih =>
    intro p hp
    have h1 := run_cycle_watchdog_stored cfg p
    have h2 := run_cycle_watchdog_fst cfg p
    simp only [UINT32_MOD] at h1 h2 h32
    have hm : (stored_consecutive p + 1) % 4294967296 = stored_consecutive p + 1 := by omega
    simp only [hm] at h1 h2
    have hlt : ¬ cfg.CONFIG_APP_RESET_WATCHDOG_THRESHOLD ≤ stored_consecutive p + 1 := by
      omega
    simp only [hlt, if_false] at h1
    simp only [hlt, decide_False] at h2
    obtain ⟨ih1, ih2⟩ := ih (run_cycle cfg watchdog_cycle p).2 (by rw [h1]; omega)
    rw [List.replicate_succ, run_boots_cons]
    refine ⟨?_, ?_⟩
    · simp only [h2, ih1, List.replicate_succ]
    · simp only [ih2, h1]; omega

/-- C10.  (1) A boot in which `main` finds the fallback flag true calls
`persist_state_clear_watchdog_counter` before `watchdog_ctrl_init` and ends with a
consecutive counter of 0, in memory and in storage, whatever the threshold.  (2) `main`
finds the flag true exactly when the consecutive counter it read in that boot has reached
`THRESHOLD`.  (3) The boot after a fallback boot reads a consecutive count of at most 1.
(4) For `2 ≤ THRESHOLD`, in any sequence of boots no two successive boots both enter
fallback mode, whatever their reset causes.  (5) For a `uint32` constant `1 ≤ THRESHOLD`,
`THRESHOLD` watchdog-caused boots from a factory-reset store do not enter fallback mode and
count up to `THRESHOLD - 1`, the last one enters it, and afterwards the stored consecutive
counter is 0 although the trailing run of watchdog-caused boots has length `THRESHOLD`. -/
theorem fallback_boot_forgives_streak (cfg : Config) :
    (∀ (env : BootEnv) (p : PersistState), fallback_entered (boot cfg env p) = true →
        called_before Event.is_clear_counter Event.is_watchdog_init (boot cfg env p).trace
            = true
          ∧ persist_state_get_consecutive_watchdog (boot cfg env p).persist = 0
          ∧ stored_consecutive (boot cfg env p).persist = 0)
      ∧ (∀ (env : BootEnv) (p : PersistState) (n : Nat),
          Event.persist_state_get_consecutive_watchdog n ∈ (boot cfg env p).trace →
          fallback_entered (boot cfg env p)
            = decide (cfg.CONFIG_APP_RESET_WATCHDOG_THRESHOLD ≤ n))
      ∧ (∀ (c : BootCycle) (env : BootEnv) (p : PersistState) (n : Nat),
          (run_cycle cfg c p).1 = true →
          Event.persist_state_get_consecutive_watchdog n
            ∈ (boot cfg env (run_cycle cfg c p).2).trace →
          n ≤ 1)
      ∧ (2 ≤ cfg.CONFIG_APP_RESET_WATCHDOG_THRESHOLD →
          ∀ (cycles : List BootCycle) (p : PersistState),
            List.Chain' (fun a b : Bool => ¬ (a = true ∧ b = true))
              (run_boots cfg cycles p).1)
      ∧ (1 ≤ cfg.CONFIG_APP_RESET_WATCHDOG_THRESHOLD →
          cfg.CONFIG_APP_RESET_WATCHDOG_THRESHOLD < UINT32_MOD →
          ∀ p0 : PersistState,
            (run_boots cfg
                (List.replicate (cfg.CONFIG_APP_RESET_WATCHDOG_THRESHOLD - 1) watchdog_cycle)
                (persist_state_test_reset p0)).1
              = List.replicate (cfg.CONFIG_APP_RESET_WATCHDOG_THRESHOLD - 1) false
            ∧ stored_consecutive
                (run_boots cfg
                  (List.replicate (cfg.CONFIG_APP_RESET_WATCHDOG_THRESHOLD - 1)
                    watchdog_cycle)
                  (persist_state_test_reset p0)).2
              = cfg.CONFIG_APP_RESET_WATCHDOG_THRESHOLD - 1
            ∧ (run_boots cfg
                (List.replicate cfg.CONFIG_APP_RESET_WATCHDOG_THRESHOLD watchdog_cycle)
                (persist_state_test_reset p0)).1
              = List.replicate (cfg.CONFIG_APP_RESET_WATCHDOG_THRESHOLD - 1) false ++ [true]
            ∧ stored_consecutive
                (run_boots cfg
                  (List.replicate cfg.CONFIG_APP_RESET_WATCHDOG_THRESHOLD watchdog_cycle)
                  (persist_state_test_reset p0)).2 = 0
            ∧ trailing_true_run
                ((List.replicate cfg.CONFIG_APP_RESET_WATCHDOG_THRESHOLD watchdog_cycle).map
                  BootCycle.watchdog_caused)
              = cfg.CONFIG_APP_RESET_WATCHDOG_THRESHOLD) := by
  refine ⟨?_, ?_, ?_, ?_, ?_⟩
  · intro env p hfb
    rw [fallback_entered_eq] at hfb
    refine ⟨?_, ?_, ?_⟩
    · rw [called_before_filter]
      simp [boot_trace, history_calls, recovery_calls, start_calls, reset_cause_calls,
        LOG_EVT, LOG_EVT_SIMPLE, List.filter_append, List.filter_cons, filter_ite,
        Event.is_clear_counter, Event.is_watchdog_init, called_before, hfb]
    · rw [boot_persist]
      simp [store_after_main, hfb, persist_state_clear_watchdog_counter, persist_commit,
        persist_state_get_consecutive_watchdog]
    · rw [boot_persist, stored_consecutive_after_main, hfb]
      simp
  · intro env p n hn
    have h1 : Event.persist_state_get_consecutive_watchdog n ∈
        (boot cfg env p).trace.filter Event.is_consecutive_read :=
      List.mem_filter.mpr ⟨hn, rfl⟩
    rw [boot_consecutive_reads] at h1
    have h2 : n = persist_state_get_consecutive_watchdog
        (store_after_record_boot env (persist_state_test_reload p)) := by
      simpa using h1
    rw [fallback_entered_eq, h2]
    rfl
  · intro c env p n h hn
    have hz := run_cycle_fallback_clears cfg c p h
    have h1 : Event.persist_state_get_consecutive_watchdog n ∈
        (boot cfg env (run_cycle cfg c p).2).trace.filter Event.is_consecutive_read :=
      List.mem_filter.mpr ⟨hn, rfl⟩
    rw [boot_consecutive_reads, consecutive_after_record_boot, hz] at h1
    have h2 : n = if watchdog_reset_of env = true then
        ((if env.persist_read_ok = true then 0 else 0) + 1) % UINT32_MOD else 0 := by
      simpa using h1
    rw [h2]
    cases watchdog_reset_of env <;> simp [UINT32_MOD]
  · intro hT cycles p
    exact no_two_successive_fallbacks cfg hT cycles p
  · intro h1 h32 p0
    obtain ⟨n, hn⟩ : ∃ n, cfg.CONFIG_APP_RESET_WATCHDOG_THRESHOLD = n + 1 :=
      ⟨cfg.CONFIG_APP_RESET_WATCHDOG_THRESHOLD - 1, by omega⟩
    have h0 : stored_consecutive (persist_state_test_reset p0) = 0 := by
      simp [stored_consecutive, persist_state_test_reset, FaultRecord.zero]
    obtain ⟨hf, hs⟩ := watchdog_run_counts cfg h32 n (persist_state_test_reset p0)
      (by rw [h0, hn]; omega)
    rw [h0, Nat.zero_add] at hs
    have hlast1 := run_cycle_watchdog_fst cfg
      (run_boots cfg (List.replicate n watchdog_cycle) (persist_state_test_reset p0)).2
    have hlast2 := run_cycle_watchdog_stored cfg
      (run_boots cfg (List.replicate n watchdog_cycle) (persist_state_test_reset p0)).2
    rw [hs] at hlast1 hlast2
    simp only [UINT32_MOD] at hlast1 hlast2 h32
    have hm : (n + 1) % 4294967296 = n + 1 := by omega
    simp only [hm] at hlast1 hlast2
    have hle : cfg.CONFIG_APP_RESET_WATCHDOG_THRESHOLD ≤ n + 1 := by omega
    simp only [hle, if_true] at hlast2
    simp only [hle, decide_True] at hlast1
    have happ : List.replicate (n + 1) watchdog_cycle
        = List.replicate n watchdog_cycle ++ [watchdog_cycle] := List.replicate_succ' _ _
    have hrun : run_boots cfg [watchdog_cycle]
        (run_boots cfg (List.replicate n watchdog_cycle) (persist_state_test_reset p0)).2
        = ((run_cycle cfg watchdog_cycle
            (run_boots cfg (List.replicate n watchdog_cycle)
              (persist_state_test_reset p0)).2).1 :: [],
           (run_cycle cfg watchdog_cycle
            (run_boots cfg (List.replicate n watchdog_cycle)
              (persist_state_test_reset p0)).2).2) := rfl
    have hw : watchdog_cycle.watchdog_caused = true := by decide
    rw [hn, Nat.add_sub_cancel, happ, run_boots_append, hrun, ← happ]
    refine ⟨hf, hs, ?_, hlast2, ?_⟩
    · simp only [hf, hlast1]
    · rw [List.map_replicate, hw, trailing_true_run_replicate]

/-- C10 witness: the sample configuration (threshold 3).  A watchdog-caused boot that
starts from a stored consecutive counter of 2 enters fallback mode, clears the counter
before `watchdog_ctrl_init` and stores 0; seven watchdog-caused boots in a row never enter
fallback mode twice in succession; three of them from the factory-reset store enter it on
the third boot only. -/
theorem fallback_boot_forgives_streak_witness :
    fallback_entered
        (boot sample_config watchdog_cycle.env ⟨FaultRecord.zero, some ⟨2, 2, 0⟩⟩) = true
      ∧ (called_before Event.is_clear_counter Event.is_watchdog_init
            (boot sample_config watchdog_cycle.env
              ⟨FaultRecord.zero, some ⟨2, 2, 0⟩⟩).trace = true
          ∧ persist_state_get_consecutive_watchdog
              (boot sample_config watchdog_cycle.env
                ⟨FaultRecord.zero, some ⟨2, 2, 0⟩⟩).persist = 0
          ∧ stored_consecutive
              (boot sample_config watchdog_cycle.env
                ⟨FaultRecord.zero, some ⟨2, 2, 0⟩⟩).persist = 0)
      ∧ 2 ≤ sample_config.CONFIG_APP_RESET_WATCHDOG_THRESHOLD
      ∧ List.Chain' (fun a b : Bool => ¬ (a = true ∧ b = true))
          (run_boots sample_config (List.replicate 7 watchdog_cycle)
            (persist_state_test_reset ⟨FaultRecord.zero, none⟩)).1
      ∧ sample_config.CONFIG_APP_RESET_WATCHDOG_THRESHOLD < UINT32_MOD
      ∧ (run_boots sample_config (List.replicate 3 watchdog_cycle)
            (persist_state_test_reset ⟨FaultRecord.zero, none⟩)).1 = [false, false, true]
      ∧ stored_consecutive
          (run_boots sample_config (List.replicate 3 watchdog_cycle)
            (persist_state_test_reset ⟨FaultRecord.zero, none⟩)).2 = 0 :=
  ⟨by decide,
    (fallback_boot_forgives_streak sample_config).1 watchdog_cycle.env
      ⟨FaultRecord.zero, some ⟨2, 2, 0⟩⟩ (by decide),
    by decide,
    (fallback_boot_forgives_streak sample_config).2.2.2.1 (by decide)
      (List.replicate 7 watchdog_cycle) (persist_state_test_reset ⟨FaultRecord.zero, none⟩),
    by decide,
    ((fallback_boot_forgives_streak sample_config).2.2.2.2 (by decide) (by decide)
      ⟨FaultRecord.zero, none⟩).2.2.1,
    ((fallback_boot_forgives_streak sample_config).2.2.2.2 (by decide) (by decide)
      ⟨FaultRecord.zero, none⟩).2.2.2.1⟩

/-! ## `health_thread`: toggle failures and the system heartbeat -/

/-- The number of `supervisor_notify_system_alive` calls of the loop is determined by the
number of successful toggles alone. -/
theorem health_loop_system_alive (fb : Bool) (toggles : List Int) :
    ∀ hb cnt : Nat, hb < 1000 →
      (health_loop (led_period_ms fb) 1000 toggles hb cnt).countP Event.is_system_alive
        = (hb + toggles.count 0 * led_period_ms fb) / 1000 := by
  induction toggles with
  | nil =>
    intro hb cnt h
    simp [health_loop]; omega
  | cons ret rest ih =>
    intro hb cnt h
    by_cases hr : ret = 0
    · subst hr
      cases fb
      · by_cases hge : 1000 ≤ (hb + 500) % UINT32_MOD
        · have h2 : (hb + 500) % UINT32_MOD - 1000 < 1000 := by
            simp only [UINT32_MOD] at hge ⊢; omega
          have := ih ((hb + 500) % UINT32_MOD - 1000) ((cnt + 1) % UINT32_MOD) h2
          simp only [show led_period_ms false = 500 from rfl] at this ⊢
          simp only [health_loop, bne_self_eq_false, Bool.false_eq_true, if_false, ge_iff_le,
            hge, if_true, List.countP_append, List.countP_cons, List.countP_nil, this,
            Event.is_system_alive, List.count_cons_self]
          have hlog : ∀ c : Nat, (if (c % 10 == 0) = true then
              [LOG_EVT .INF "HEARTBEAT" "OK" "count=%u" [(c : Int)]] else []).countP
                Event.is_system_alive = 0 := by
            intro c; split <;> simp [LOG_EVT, Event.is_system_alive]
          rw [hlog]
          simp only [UINT32_MOD] at hge ⊢
          omega
        · have h2 : (hb + 500) % UINT32_MOD < 1000 := by omega
          have := ih ((hb + 500) % UINT32_MOD) cnt h2
          simp only [show led_period_ms false = 500 from rfl] at this ⊢
          simp only [health_loop, bne_self_eq_false, Bool.false_eq_true, if_false, ge_iff_le,
            hge, List.countP_append, List.countP_cons, List.countP_nil, this,
            Event.is_system_alive, List.count_cons_self]
          simp only [UINT32_MOD] at hge ⊢
          omega
      · by_cases hge : 1000 ≤ (hb + 1000) % UINT32_MOD
        · have h2 : (hb + 1000) % UINT32_MOD - 1000 < 1000 := by
            simp only [UINT32_MOD] at hge ⊢; omega
          have := ih ((hb + 1000) % UINT32_MOD - 1000) ((cnt + 1) % UINT32_MOD) h2
          simp only [show led_period_ms true = 1000 from rfl] at this ⊢
          simp only [health_loop, bne_self_eq_false, Bool.false_eq_true, if_false, ge_iff_le,
            hge, if_true, List.countP_append, List.countP_cons, List.countP_nil, this,
            Event.is_system_alive, List.count_cons_self]
          have hlog : ∀ c : Nat, (if (c % 10 == 0) = true then
              [LOG_EVT .INF "HEARTBEAT" "OK" "count=%u" [(c : Int)]] else []).countP
                Event.is_system_alive = 0 := by
            intro c; split <;> simp [LOG_EVT, Event.is_system_alive]
          rw [hlog]
          simp only [UINT32_MOD] at hge ⊢
          omega
        · have h2 : (hb + 1000) % UINT32_MOD < 1000 := by omega
          have := ih ((hb + 1000) % UINT32_MOD) cnt h2
          simp only [show led_period_ms true = 1000 from rfl] at this ⊢
          simp only [health_loop, bne_self_eq_false, Bool.false_eq_true, if_false, ge_iff_le,
            hge, List.countP_append, List.countP_cons, List.countP_nil, this,
            Event.is_system_alive, List.count_cons_self]
          simp only [UINT32_MOD] at hge ⊢
          omega
    · have := ih hb cnt h
      have hne : (ret != 0) = true := by simpa using hr
      have hc : List.count 0 (ret :: rest) = List.count 0 rest :=
        List.count_cons_of_ne (Ne.symm hr) rest
      simp only [health_loop, hne, if_true, List.countP_append, List.countP_cons,
        List.countP_nil, this, Event.is_system_alive, hc]
      simp

/-- C4 (as stated, refuted): in a run of `health_thread` whose four toggles all fail, the
loop spends 4000 ms without a single `supervisor_notify_system_alive` call, whereas four
successful toggles (2000 ms) give two such calls. -/
theorem toggle_failure_suppresses_heartbeat :
    total_slept_ms (health_thread false 0 [-5, -5, -5, -5]) = 4000
      ∧ (health_thread false 0 [-5, -5, -5, -5]).countP Event.is_system_alive = 0
      ∧ total_slept_ms (health_thread false 0 [0, 0, 0, 0]) = 2000
      ∧ (health_thread false 0 [0, 0, 0, 0]).countP Event.is_system_alive = 2 := by
  decide

/-- C4 (amended): in the health thread loop a toggle failure is logged, followed by a
1000 ms sleep, and the loop continues with `hb_elapsed` and the heartbeat counter
unchanged and without any liveness notification in that iteration; the number of
`supervisor_notify_system_alive` calls in a run is the number of successful toggles times
the LED period, divided by 1000, so it does not grow while toggles fail. -/
theorem health_thread_heartbeat (fb : Bool) (toggles : List Int) :
    (health_thread fb 0 toggles).countP Event.is_system_alive
        = (toggles.count 0 * led_period_ms fb) / 1000
      ∧ (∀ (ret : Int) (rest : List Int) (hb cnt : Nat), ret = 0 ∨
          health_loop (led_period_ms fb) 1000 (ret :: rest) hb cnt
            = [.gpio_pin_toggle_dt ret, .log .ERR "LED toggle failed: %d" [ret],
                .k_msleep 1000]
              ++ health_loop (led_period_ms fb) 1000 rest hb cnt) := by
  constructor
  · have h := health_loop_system_alive fb toggles 0 0 (by decide)
    cases fb <;>
      simpa [health_thread, List.countP_append, List.countP_cons, Event.is_system_alive,
        LOG_EVT_SIMPLE] using h
  · intro ret rest hb cnt
    by_cases hr : ret = 0
    · exact Or.inl hr
    · right
      have hne : (ret != 0) = true := by simpa using hr
      simp only [health_loop, hne, if_true]

/-! ## Supervisor tick -/

/-- C7: for every supervisor tick, with SYSTEM always monitored and LED monitored only if
LED monitoring was enabled at `supervisor_start`: if every monitored channel is fresh
(`now - lastAlive ≤` its stale threshold) the tick feeds the watchdog once and makes no
recovery request; otherwise it does not feed and its only recovery request is
`RECOVERY_REASON_HEALTH_FAULT`.  With LED monitoring disabled a fresh SYSTEM channel means
no recovery request whatever the LED channel; a stale SYSTEM channel always gives the
request. -/
theorem supervisor_tick_escalation (cfg : Config) (now retune_rc : Int)
    (s : SupervisorState) :
    (if now - s.sysLastAlive ≤ (cfg.CONFIG_APP_HEALTH_SYS_STALE_MS : Int)
          ∧ (s.ledMonitoringEnabled = true →
              now - s.ledLastAlive ≤ (cfg.CONFIG_APP_HEALTH_LED_STALE_MS : Int)) then
        (supervisor_tick cfg now retune_rc s).2.countP Event.is_feed = 1
          ∧ (supervisor_tick cfg now retune_rc s).2.countP Event.is_recovery_request = 0
      else
        (supervisor_tick cfg now retune_rc s).2.countP Event.is_feed = 0
          ∧ (supervisor_tick cfg now retune_rc s).2.filter Event.is_recovery_request
            = [.recovery_request .RECOVERY_REASON_HEALTH_FAULT])
      ∧ (s.ledMonitoringEnabled = false →
          now - s.sysLastAlive ≤ (cfg.CONFIG_APP_HEALTH_SYS_STALE_MS : Int) →
          (supervisor_tick cfg now retune_rc s).2.countP Event.is_recovery_request = 0)
      ∧ (now - s.sysLastAlive > (cfg.CONFIG_APP_HEALTH_SYS_STALE_MS : Int) →
          Event.recovery_request .RECOVERY_REASON_HEALTH_FAULT
            ∈ (supervisor_tick cfg now retune_rc s).2) := by
  have hret : ∀ q : Event → Bool, q .persist_state_clear_watchdog_counter = false →
      (∀ t r, q (.watchdog_ctrl_retune t r) = false) →
      (∀ l t a, q (.log l t a) = false) →
      (supervisor_retune_step now retune_rc s).2.filter q = [] := by
    intro q h1 h2 h3
    unfold supervisor_retune_step
    split
    · by_cases hz : retune_rc = 0 <;> simp [hz, h1, h2, h3, LOG_EVT]
    · rfl
  have hfeed := hret Event.is_feed rfl (fun _ _ => rfl) (fun _ _ _ => rfl)
  have hreq := hret Event.is_recovery_request rfl (fun _ _ => rfl) (fun _ _ _ => rfl)
  have hstale : any_monitored_stale cfg now s = true ↔
      ¬ (now - s.sysLastAlive ≤ (cfg.CONFIG_APP_HEALTH_SYS_STALE_MS : Int)
          ∧ (s.ledMonitoringEnabled = true →
              now - s.ledLastAlive ≤ (cfg.CONFIG_APP_HEALTH_LED_STALE_MS : Int))) := by
    simp only [any_monitored_stale, channel_stale, Bool.or_eq_true, Bool.and_eq_true,
      decide_eq_true_eq]
    constructor
    · rintro (h | ⟨h1, h2⟩) ⟨h3, h4⟩
      · omega
      · have := h4 h1; omega
    · intro h
      by_cases h3 : now - s.sysLastAlive ≤ (cfg.CONFIG_APP_HEALTH_SYS_STALE_MS : Int)
      · right
        by_cases h1 : s.ledMonitoringEnabled = true
        · refine ⟨h1, ?_⟩
          by_contra h5
          exact h ⟨h3, fun _ => by omega⟩
        · exact absurd ⟨h3, fun h6 => absurd h6 h1⟩ h
      · left; omega
  refine ⟨?_, ?_, ?_⟩
  · by_cases hs : any_monitored_stale cfg now s = true
    · rw [if_neg (hstale.mp hs)]
      simp [supervisor_tick, hs, List.countP_eq_length_filter, List.filter_append, hfeed,
        hreq, Event.is_feed, Event.is_recovery_request]
    · have hf : ¬ ¬ (now - s.sysLastAlive ≤ (cfg.CONFIG_APP_HEALTH_SYS_STALE_MS : Int)
          ∧ (s.ledMonitoringEnabled = true →
              now - s.ledLastAlive ≤ (cfg.CONFIG_APP_HEALTH_LED_STALE_MS : Int))) :=
        fun hc => hs (hstale.mpr hc)
      rw [if_pos (not_not.mp hf)]
      simp [supervisor_tick, hs, List.countP_eq_length_filter, List.filter_append, hfeed,
        hreq, Event.is_feed, Event.is_recovery_request]
  · intro hled hsys
    have hs : ¬ any_monitored_stale cfg now s = true := by
      rw [hstale, not_not]
      exact ⟨hsys, fun h => by rw [hled] at h; cases h⟩
    simp [supervisor_tick, hs, List.countP_eq_length_filter, List.filter_append, hreq,
      Event.is_recovery_request]
  · intro hsys
    have hs : any_monitored_stale cfg now s = true := by
      rw [hstale]; rintro ⟨h, _⟩; omega
    simp [supervisor_tick, hs]

/-- C7 witness: the sample configuration (SYSTEM stale after 3000 ms), a supervisor started
at time 0 with LED monitoring disabled and never notified again: at 2000 ms the tick makes
no recovery request, at 4000 ms it requests `RECOVERY_REASON_HEALTH_FAULT`. -/
theorem supervisor_tick_escalation_witness :
    (supervisor_tick sample_config 2000 0 (supervisor_start 200 0 false 0)).2.countP
        Event.is_recovery_request = 0
      ∧ Event.recovery_request .RECOVERY_REASON_HEALTH_FAULT
          ∈ (supervisor_tick sample_config 4000 0 (supervisor_start 200 0 false 0)).2 :=
  ⟨(supervisor_tick_escalation sample_config 2000 0 (supervisor_start 200 0 false 0)).2.1
      rfl (by decide),
    (supervisor_tick_escalation sample_config 4000 0 (supervisor_start 200 0 false 0)).2.2
      (by decide)⟩

end WatchdogThreads
